import Mathlib

/-!
The program `cruder`: a user-management service.

A shallow embedding of the layers of the program

* `internal/model`      : the record and request shapes, the three sentinel errors;
* `internal/repository` : the `UserRepository` interface, the SQL implementation over an
  abstract `database/sql` handle, and the in-memory `mockUserRepository` of the tests;
* `internal/service`    : validation and orchestration (`userService`);
* `internal/controller` : the error-to-status mapping and the list endpoint.

Conventions of the embedding.

* A Go result `(*T, error)` is a pair `Option T × Option Error`; `none` is `nil`.
* A Go slice is `Option (List α)`; `none` is the nil slice.
* A pointer argument that the callee writes through (`Create(user *model.User)`) becomes an
  argument plus the record as the callee leaves it.
* Stateful code is explicit state passing.  The service runs over a `World`: the state of the
  repository together with the log of the repository operations invoked so far.
* Library routines that are not part of the program (`net/mail.ParseAddress`, the SQL driver)
  are parameters.
-/

set_option linter.dupNamespace false

namespace cruder

/-! ## Go strings -/

namespace strings

/-- The predicate `unicode.IsSpace`: the Latin-1 spaces and the code points of
category Z and property Pattern_White_Space. -/
def isSpace (c : Char) : Bool :=
  let n := c.toNat
  n = 0x09 || n = 0x0A || n = 0x0B || n = 0x0C || n = 0x0D || n = 0x20 ||
  n = 0x85 || n = 0xA0 || n = 0x1680 || (0x2000 ≤ n && n ≤ 0x200A) ||
  n = 0x2028 || n = 0x2029 || n = 0x202F || n = 0x205F || n = 0x3000

/-- The function `strings.TrimSpace`: the string with all leading and trailing white space
removed, as defined by Unicode. -/
def TrimSpace (s : String) : String :=
  String.mk ((s.data.dropWhile isSpace).reverse.dropWhile isSpace).reverse

end strings

/-! ## Go errors -/

/-- Error values.  The three sentinels of `internal/model/errors.go`, the sentinel
`sql.ErrNoRows`, any other leaf error (a driver or storage failure, `assert.AnError` in the
tests), and the wrapping produced by `fmt.Errorf` with one `%w` verb: `wrap msg err` has
message `msg` and unwraps to `err`.  An error has at most one cause: the program builds no
joined errors. -/
inductive Error where
  | ErrUserNotFound
  | ErrInvalidEmail
  | ErrEmptyField
  | ErrNoRows
  | other (msg : String)
  | wrap (msg : String) (err : Error)
  deriving DecidableEq, Repr

namespace Error

/-- The method `Error()`: the message of an error value. -/
def Error : cruder.Error → String
  | ErrUserNotFound => "user not found"
  | ErrInvalidEmail => "invalid email format"
  | ErrEmptyField => "required field is empty"
  | ErrNoRows => "sql: no rows in result set"
  | other msg => msg
  | wrap msg _ => msg

end Error

namespace errors

/-- The function `errors.Is`: walks the chain of `err`, comparing each element with `target`.
The targets used by the program are sentinels, for which comparison is identity. -/
def Is (err target : Error) : Bool :=
  if err = target then true
  else
    match err with
    | Error.wrap _ inner => Is inner target
    | _ => false

end errors

namespace fmt

/-- The call `fmt.Errorf("%s: %w", s, err)`. -/
def Errorf_s_w (s : String) (err : Error) : Error :=
  Error.wrap (s ++ ": " ++ err.Error) err

end fmt

/-! ## internal/model -/

namespace model

/-- The record `model.User`. -/
structure User where
  ID : Int
  UUID : String
  Username : String
  Email : String
  FullName : String
  deriving DecidableEq, Repr

/-- The request `model.CreateUserRequest`. -/
structure CreateUserRequest where
  Username : String
  Email : String
  FullName : String
  deriving DecidableEq, Repr

/-- The request `model.UpdateUserRequest`. -/
structure UpdateUserRequest where
  Username : String
  Email : String
  FullName : String
  deriving DecidableEq, Repr

/-- The sentinel `model.ErrUserNotFound`. -/
def ErrUserNotFound : Error := Error.ErrUserNotFound

/-- The sentinel `model.ErrInvalidEmail`. -/
def ErrInvalidEmail : Error := Error.ErrInvalidEmail

/-- The sentinel `model.ErrEmptyField`. -/
def ErrEmptyField : Error := Error.ErrEmptyField

end model

open model

/-! ## internal/repository: the interface -/

namespace repository

/-- A Go slice: `none` is the nil slice. -/
abbrev Slice (α : Type) := Option (List α)

/-- The built-in `append(s, x)`. -/
def Slice.append {α : Type} (s : Slice α) (x : α) : Slice α :=
  match s with
  | none => some [x]
  | some l => some (l ++ [x])

/-- The built-in `len(s)`. -/
def Slice.len {α : Type} (s : Slice α) : Nat :=
  match s with
  | none => 0
  | some l => l.length

/-- The interface `repository.UserRepository` over a repository state `σ`.  Each method takes
the state and returns its results with the new state.  `Create` returns the record as it leaves
it behind the pointer it was given; `Update` only reads the record. -/
structure UserRepository (σ : Type) where
  GetAll : σ → (Slice User × Option Error) × σ
  GetByUsername : String → σ → (Option User × Option Error) × σ
  GetByID : Int → σ → (Option User × Option Error) × σ
  GetByUUID : String → σ → (Option User × Option Error) × σ
  Create : User → σ → (User × Option Error) × σ
  Update : String → User → σ → Option Error × σ
  Delete : String → σ → Option Error × σ

/-- One invocation of a method of `UserRepository`, with its arguments. -/
inductive Call where
  | GetAll
  | GetByUsername (username : String)
  | GetByID (id : Int)
  | GetByUUID (uuid : String)
  | Create (user : User)
  | Update (uuid : String) (user : User)
  | Delete (uuid : String)
  deriving DecidableEq, Repr

/-- What the service runs over: the repository state and the log of the repository methods
invoked so far, oldest first. -/
structure World (σ : Type) where
  store : σ
  calls : List Call

variable {σ : Type}

/-- Invoke `GetAll`, logging the call. -/
def UserRepository.callGetAll (r : UserRepository σ) (w : World σ) :
    (Slice User × Option Error) × World σ :=
  ((r.GetAll w.store).1, ⟨(r.GetAll w.store).2, w.calls ++ [Call.GetAll]⟩)

/-- Invoke `GetByUsername`, logging the call. -/
def UserRepository.callGetByUsername (r : UserRepository σ) (username : String) (w : World σ) :
    (Option User × Option Error) × World σ :=
  ((r.GetByUsername username w.store).1,
    ⟨(r.GetByUsername username w.store).2, w.calls ++ [Call.GetByUsername username]⟩)

/-- Invoke `GetByID`, logging the call. -/
def UserRepository.callGetByID (r : UserRepository σ) (id : Int) (w : World σ) :
    (Option User × Option Error) × World σ :=
  ((r.GetByID id w.store).1, ⟨(r.GetByID id w.store).2, w.calls ++ [Call.GetByID id]⟩)

/-- Invoke `GetByUUID`, logging the call. -/
def UserRepository.callGetByUUID (r : UserRepository σ) (uuid : String) (w : World σ) :
    (Option User × Option Error) × World σ :=
  ((r.GetByUUID uuid w.store).1, ⟨(r.GetByUUID uuid w.store).2, w.calls ++ [Call.GetByUUID uuid]⟩)

/-- Invoke `Create`, logging the call. -/
def UserRepository.callCreate (r : UserRepository σ) (user : User) (w : World σ) :
    (User × Option Error) × World σ :=
  ((r.Create user w.store).1, ⟨(r.Create user w.store).2, w.calls ++ [Call.Create user]⟩)

/-- Invoke `Update`, logging the call. -/
def UserRepository.callUpdate (r : UserRepository σ) (uuid : String) (user : User) (w : World σ) :
    Option Error × World σ :=
  ((r.Update uuid user w.store).1,
    ⟨(r.Update uuid user w.store).2, w.calls ++ [Call.Update uuid user]⟩)

/-- Invoke `Delete`, logging the call. -/
def UserRepository.callDelete (r : UserRepository σ) (uuid : String) (w : World σ) :
    Option Error × World σ :=
  ((r.Delete uuid w.store).1, ⟨(r.Delete uuid w.store).2, w.calls ++ [Call.Delete uuid]⟩)

end repository

open repository

/-! ## internal/service -/

namespace service

/-- The routine `net/mail.ParseAddress`, as far as the service uses it: the error it returns
for a string, `none` when the string parses as a single address. -/
abbrev AddressParser := String → Option Error

/-- The struct `userService`: the repository it was built over, and the address parser its
package imports. -/
structure userService (σ : Type) where
  userRepository : UserRepository σ
  ParseAddress : AddressParser

variable {σ : Type}

/-- The constructor `NewUserService`. -/
def NewUserService (ParseAddress : AddressParser) (userRepository : UserRepository σ) :
    userService σ :=
  ⟨userRepository, ParseAddress⟩

/-- The function `isValidEmail`. -/
def isValidEmail (ParseAddress : AddressParser) (email : String) : Bool :=
  match ParseAddress email with
  | none => true
  | some _ => false

namespace userService

/-- The method `GetAllUsers`. -/
def GetAllUsers (svc : userService σ) (w : World σ) : (Slice User × Option Error) × World σ :=
  svc.userRepository.callGetAll w

/-- The method `validateUserExists`. -/
def validateUserExists (user : Option User) (err : Option Error) : Option User × Option Error :=
  match err with
  | some e => (none, some e)
  | none =>
    match user with
    | none => (none, some ErrUserNotFound)
    | some u => (some u, none)

/-- The method `updateFieldIfProvided`: the value of `*target` after the call. -/
def updateFieldIfProvided (target : String) (value : String) : String :=
  if value ≠ "" then value else target

/-- The method `validateRequiredField`. -/
def validateRequiredField (fieldName value : String) : Option Error :=
  if strings.TrimSpace value = "" then some (fmt.Errorf_s_w fieldName ErrEmptyField)
  else none

/-- The method `validateCreateRequest`. -/
def validateCreateRequest (svc : userService σ) (request : CreateUserRequest) : Option Error :=
  match validateRequiredField "username" request.Username with
  | some err => some err
  | none =>
    match validateRequiredField "email" request.Email with
    | some err => some err
    | none =>
      if !isValidEmail svc.ParseAddress request.Email then some ErrInvalidEmail
      else none

/-- The method `validateUpdateRequest`. -/
def validateUpdateRequest (svc : userService σ) (request : UpdateUserRequest) : Option Error :=
  if strings.TrimSpace request.Email ≠ "" && !isValidEmail svc.ParseAddress request.Email then
    some ErrInvalidEmail
  else none

/-- The method `validateNonEmpty`. -/
def validateNonEmpty (value : String) : Option Error :=
  if strings.TrimSpace value = "" then some ErrEmptyField else none

/-- The method `GetUserByUsername`. -/
def GetUserByUsername (svc : userService σ) (username : String) (w : World σ) :
    (Option User × Option Error) × World σ :=
  let r := svc.userRepository.callGetByUsername username w
  (validateUserExists r.1.1 r.1.2, r.2)

/-- The method `GetUserByID`. -/
def GetUserByID (svc : userService σ) (id : Int) (w : World σ) :
    (Option User × Option Error) × World σ :=
  let r := svc.userRepository.callGetByID id w
  (validateUserExists r.1.1 r.1.2, r.2)

/-- The method `GetUserByUUID`. -/
def GetUserByUUID (svc : userService σ) (uuid : String) (w : World σ) :
    (Option User × Option Error) × World σ :=
  match validateNonEmpty uuid with
  | some err => ((none, some err), w)
  | none =>
    let r := svc.userRepository.callGetByUUID uuid w
    (validateUserExists r.1.1 r.1.2, r.2)

/-- The method `CreateUser`. -/
def CreateUser (svc : userService σ) (request : CreateUserRequest) (w : World σ) :
    (Option User × Option Error) × World σ :=
  match validateCreateRequest svc request with
  | some err => ((none, some err), w)
  | none =>
    let user : User :=
      { ID := 0, UUID := "", Username := request.Username, Email := request.Email,
        FullName := request.FullName }
    let r := svc.userRepository.callCreate user w
    match r.1.2 with
    | some err => ((none, some err), r.2)
    | none => ((some r.1.1, none), r.2)

/-- The method `UpdateUser`.  The branch in which `validateUserExists` returns neither a user
nor an error is where the source would dereference a nil `existing`; it is never taken
(`validateUserExists_nil_error`). -/
def UpdateUser (svc : userService σ) (uuid : String) (request : UpdateUserRequest)
    (w : World σ) : (Option User × Option Error) × World σ :=
  match validateNonEmpty uuid with
  | some err => ((none, some err), w)
  | none =>
    let r := svc.userRepository.callGetByUUID uuid w
    let v := validateUserExists r.1.1 r.1.2
    match v.2 with
    | some err => ((none, some err), r.2)
    | none =>
      match v.1 with
      | none => ((none, none), r.2)
      | some existing =>
        match validateUpdateRequest svc request with
        | some err => ((none, some err), r.2)
        | none =>
          let existing1 : User :=
            { existing with
              Username := updateFieldIfProvided existing.Username request.Username,
              Email := updateFieldIfProvided existing.Email request.Email,
              FullName := updateFieldIfProvided existing.FullName request.FullName }
          let r2 := svc.userRepository.callUpdate uuid existing1 r.2
          match r2.1 with
          | some err => ((none, some err), r2.2)
          | none => ((some existing1, none), r2.2)

/-- The method `DeleteUser`. -/
def DeleteUser (svc : userService σ) (uuid : String) (w : World σ) : Option Error × World σ :=
  match validateNonEmpty uuid with
  | some err => (some err, w)
  | none =>
    let r := svc.userRepository.callGetByUUID uuid w
    match (validateUserExists r.1.1 r.1.2).2 with
    | some err => (some err, r.2)
    | none => svc.userRepository.callDelete uuid r.2

end userService

/-! ### The in-memory repository of `users_test.go` -/

/-- A Go `map[string]*model.User`, as an association list with at most one entry per key.
The iteration order of a Go map is unspecified; the order of the list stands for one order. -/
abbrev UserMap := List (String × User)

namespace UserMap

/-- The lookup `m[k]` with its presence flag. -/
def get : UserMap → String → Option User
  | [], _ => none
  | (k1, v1) :: m, k => if k1 = k then some v1 else get m k

/-- The assignment `m[k] = v`. -/
def set : UserMap → String → User → UserMap
  | [], k, v => [(k, v)]
  | (k1, v1) :: m, k, v => if k1 = k then (k, v) :: m else (k1, v1) :: set m k v

/-- The built-in `delete(m, k)`. -/
def delete : UserMap → String → UserMap
  | [], _ => []
  | (k1, v1) :: m, k => if k1 = k then delete m k else (k1, v1) :: delete m k

end UserMap

/-- The verb `%04d` of `fmt.Sprintf`: decimal, zero-padded to width four, sign included. -/
def Sprintf_04d (n : Int) : String :=
  let digits := Nat.repr n.natAbs
  if n < 0 then "-" ++ String.mk (List.replicate (3 - digits.length) (Char.ofNat 48)) ++ digits
  else String.mk (List.replicate (4 - digits.length) (Char.ofNat 48)) ++ digits

/-- The function `generateMockUUID`. -/
def generateMockUUID (id : Int) : String :=
  "123e4567-e89b-12d3-a456-42661417" ++ Sprintf_04d id

/-- The increment `n++` of a Go `int` (64 bits, wrapping). -/
def intIncr (n : Int) : Int :=
  (n + 1 + 2 ^ 63) % 2 ^ 64 - 2 ^ 63

/-- The error `assert.AnError` of the test library. -/
def AnError : Error := Error.other "assert.AnError general error for testing"

/-- The struct `mockUserRepository`. -/
structure mockUserRepository where
  users : UserMap
  nextID : Int
  shouldFail : Bool
  deriving DecidableEq, Repr

/-- The constructor `newMockUserRepository`. -/
def newMockUserRepository : mockUserRepository :=
  { users := [], nextID := 1, shouldFail := false }

namespace mockUserRepository

/-- The method `GetAll` of the mock. -/
def GetAll (m : mockUserRepository) : (Slice User × Option Error) × mockUserRepository :=
  if m.shouldFail then ((none, some AnError), m)
  else ((m.users.foldl (fun users p => Slice.append users p.2) (some []), none), m)

/-- The method `GetByUsername` of the mock. -/
def GetByUsername (username : String) (m : mockUserRepository) :
    (Option User × Option Error) × mockUserRepository :=
  if m.shouldFail then ((none, some AnError), m)
  else (((m.users.find? (fun p => p.2.Username = username)).map Prod.snd, none), m)

/-- The method `GetByID` of the mock. -/
def GetByID (id : Int) (m : mockUserRepository) :
    (Option User × Option Error) × mockUserRepository :=
  if m.shouldFail then ((none, some AnError), m)
  else (((m.users.find? (fun p => p.2.ID = id)).map Prod.snd, none), m)

/-- The method `GetByUUID` of the mock. -/
def GetByUUID (uuid : String) (m : mockUserRepository) :
    (Option User × Option Error) × mockUserRepository :=
  if m.shouldFail then ((none, some AnError), m)
  else
    match m.users.get uuid with
    | none => ((none, none), m)
    | some user => ((some user, none), m)

/-- The method `Create` of the mock. -/
def Create (user : User) (m : mockUserRepository) : (User × Option Error) × mockUserRepository :=
  if m.shouldFail then ((user, some AnError), m)
  else
    let user1 : User := { user with ID := m.nextID, UUID := generateMockUUID m.nextID }
    ((user1, none),
      { m with nextID := intIncr m.nextID, users := m.users.set user1.UUID user1 })

/-- The method `Update` of the mock. -/
def Update (uuid : String) (user : User) (m : mockUserRepository) :
    Option Error × mockUserRepository :=
  if m.shouldFail then (some AnError, m)
  else
    match m.users.get uuid with
    | none => (none, m)
    | some existing =>
      (none,
        { m with
          users := m.users.set uuid
            { existing with
              Username := user.Username, Email := user.Email, FullName := user.FullName } })

/-- The method `Delete` of the mock. -/
def Delete (uuid : String) (m : mockUserRepository) : Option Error × mockUserRepository :=
  if m.shouldFail then (some AnError, m)
  else (none, { m with users := m.users.delete uuid })

/-- The mock as a `UserRepository`
(`var _ repository.UserRepository = (*mockUserRepository)(nil)`). -/
def repo : UserRepository mockUserRepository :=
  { GetAll := GetAll, GetByUsername := GetByUsername, GetByID := GetByID,
    GetByUUID := GetByUUID, Create := Create, Update := Update, Delete := Delete }

end mockUserRepository

/-- An address parser to evaluate examples with.  It accepts exactly the bare form
`local@domain` with both parts non-empty and made of letters, digits and `. - _ +`, and
rejects everything else; the strings of the examples below it accepts or rejects as
`net/mail.ParseAddress` does. -/
def exampleParseAddress : AddressParser := fun address =>
  let ok := fun (c : Char) =>
    let n := c.toNat
    (48 ≤ n && n ≤ 57) || (65 ≤ n && n ≤ 90) || (97 ≤ n && n ≤ 122) ||
    n = 46 || n = 45 || n = 95 || n = 43
  let s := address.data.dropWhile (fun c => c.toNat = 32 || c.toNat = 9)
  if s = [] then some (Error.other "mail: no address")
  else
    let localPart := s.takeWhile ok
    match s.dropWhile ok with
    | [] => some (Error.other "mail: missing @ in addr-spec")
    | c :: domain =>
      if c.toNat = 64 && localPart ≠ [] && domain ≠ [] && domain.all ok then none
      else some (Error.other "mail: no angle-addr")

/-- The function `setupTest`: a service over a fresh mock. -/
def setupTest : World mockUserRepository × userService mockUserRepository :=
  (⟨newMockUserRepository, []⟩, NewUserService exampleParseAddress mockUserRepository.repo)

end service

/-! ## internal/repository: the SQL implementation -/

namespace sql

/-- A value bound to a placeholder of a statement. -/
inductive Value where
  | int (n : Int)
  | text (s : String)
  deriving DecidableEq, Repr

/-- The sentinel `sql.ErrNoRows`. -/
def ErrNoRows : Error := Error.ErrNoRows

/-- The cursor `*sql.Rows` of an accepted query, as the repository sees it: for each row that
`rows.Next()` yields, the outcome of scanning it into the five fields of a user, and the error
`rows.Err()` reports once `rows.Next()` has returned false. -/
structure Rows where
  scans : List (Except Error User)
  err : Option Error

/-- The value `*sql.Row` of a single-row query, as the repository sees it: the outcome of
`Scan` into the five fields of a user, and the outcome of `Scan` into an id and a UUID.  A
query that selects no row makes `Scan` return `sql.ErrNoRows`. -/
structure Row where
  scanUser : Except Error User
  scanIDUUID : Except Error (Int × String)

/-- The handle `*sql.DB` over a database state `δ`: the three methods the repository calls,
each given the statement and the values bound to its placeholders. -/
structure DB (δ : Type) where
  QueryContext : String → List Value → δ → Except Error Rows × δ
  QueryRowContext : String → List Value → δ → Row × δ
  ExecContext : String → List Value → δ → Option Error × δ

end sql

namespace repository

/-- The constant `selectUserColumns`. -/
def selectUserColumns : String := "SELECT id, uuid, username, email, full_name FROM users"

namespace userRepository

variable {δ : Type}

/-- The method `buildSelectQuery`. -/
def buildSelectQuery (whereClause : String) : String :=
  selectUserColumns ++ " WHERE " ++ whereClause

/-- The method `scanUserRow`. -/
def scanUserRow (row : sql.Row) : Option User × Option Error :=
  match row.scanUser with
  | Except.error err => if err = sql.ErrNoRows then (none, none) else (none, some err)
  | Except.ok user => (some user, none)

/-- The loop of `GetAll`: starting from `users`, scan and append row after row; the method
returns at the first scan that fails, with its error. -/
def scanRows : Slice User → List (Except Error User) → Except Error (Slice User)
  | users, [] => Except.ok users
  | _, Except.error err :: _ => Except.error err
  | users, Except.ok user :: rest => scanRows (Slice.append users user) rest

/-- The method `GetAll`.  The slice `users` is declared without a value, so it is nil until
the first `append`. -/
def GetAll (db : sql.DB δ) (d : δ) : (Slice User × Option Error) × δ :=
  match (db.QueryContext selectUserColumns [] d).1 with
  | Except.error err => ((none, some err), (db.QueryContext selectUserColumns [] d).2)
  | Except.ok rows =>
    match scanRows none rows.scans with
    | Except.error err => ((none, some err), (db.QueryContext selectUserColumns [] d).2)
    | Except.ok users => ((users, rows.err), (db.QueryContext selectUserColumns [] d).2)

/-- The method `GetByUsername`. -/
def GetByUsername (db : sql.DB δ) (username : String) (d : δ) :
    (Option User × Option Error) × δ :=
  let r := db.QueryRowContext (buildSelectQuery "username = $1") [sql.Value.text username] d
  (scanUserRow r.1, r.2)

/-- The method `GetByID`. -/
def GetByID (db : sql.DB δ) (id : Int) (d : δ) : (Option User × Option Error) × δ :=
  let r := db.QueryRowContext (buildSelectQuery "id = $1") [sql.Value.int id] d
  (scanUserRow r.1, r.2)

/-- The method `GetByUUID`. -/
def GetByUUID (db : sql.DB δ) (uuid : String) (d : δ) : (Option User × Option Error) × δ :=
  let r := db.QueryRowContext (buildSelectQuery "uuid = $1") [sql.Value.text uuid] d
  (scanUserRow r.1, r.2)

/-- The method `Create`. -/
def Create (db : sql.DB δ) (user : User) (d : δ) : (User × Option Error) × δ :=
  let r := db.QueryRowContext
    "INSERT INTO users (username, email, full_name) VALUES ($1, $2, $3) RETURNING id, uuid"
    [sql.Value.text user.Username, sql.Value.text user.Email, sql.Value.text user.FullName] d
  match r.1.scanIDUUID with
  | Except.error err => ((user, some err), r.2)
  | Except.ok idUUID => (({ user with ID := idUUID.1, UUID := idUUID.2 }, none), r.2)

/-- The method `Update`. -/
def Update (db : sql.DB δ) (uuid : String) (user : User) (d : δ) : Option Error × δ :=
  db.ExecContext "UPDATE users SET username = $1, email = $2, full_name = $3 WHERE uuid = $4"
    [sql.Value.text user.Username, sql.Value.text user.Email, sql.Value.text user.FullName,
      sql.Value.text uuid] d

/-- The method `Delete`. -/
def Delete (db : sql.DB δ) (uuid : String) (d : δ) : Option Error × δ :=
  db.ExecContext "DELETE FROM users WHERE uuid = $1" [sql.Value.text uuid] d

end userRepository

/-- The constructor `NewUserRepository`. -/
def NewUserRepository {δ : Type} (db : sql.DB δ) : UserRepository δ :=
  { GetAll := userRepository.GetAll db, GetByUsername := userRepository.GetByUsername db,
    GetByID := userRepository.GetByID db, GetByUUID := userRepository.GetByUUID db,
    Create := userRepository.Create db, Update := userRepository.Update db,
    Delete := userRepository.Delete db }

end repository

/-! ## internal/controller -/

namespace controller

/-- A JSON document. -/
inductive JSON where
  | null
  | number (n : Int)
  | string (s : String)
  | array (items : List JSON)
  | object (members : List (String × JSON))

/-- The encoding of a `model.User` by `encoding/json`, with the keys of its field tags. -/
def marshalUser (user : User) : JSON :=
  JSON.object
    [("id", JSON.number user.ID), ("uuid", JSON.string user.UUID),
      ("username", JSON.string user.Username), ("email", JSON.string user.Email),
      ("full_name", JSON.string user.FullName)]

/-- The encoding of a `[]model.User` by `encoding/json`: a slice encodes as an array, except
that a nil slice encodes as the null value. -/
def marshalUsers (users : Slice User) : JSON :=
  match users with
  | none => JSON.null
  | some l => JSON.array (l.map marshalUser)

/-- The encoding of the map `gin.H` with the one key `error`. -/
def marshalH_error (msg : String) : JSON :=
  JSON.object [("error", JSON.string msg)]

/-- What a handler has written to its `*gin.Context`: the status code and the body. -/
structure Response where
  status : Nat
  body : JSON

/-- The status code `http.StatusOK`. -/
def StatusOK : Nat := 200

/-- The status code `http.StatusBadRequest`. -/
def StatusBadRequest : Nat := 400

/-- The status code `http.StatusNotFound`. -/
def StatusNotFound : Nat := 404

/-- The status code `http.StatusInternalServerError`. -/
def StatusInternalServerError : Nat := 500

/-- The struct `UserController`. -/
structure UserController (σ : Type) where
  userService : service.userService σ

namespace UserController

variable {σ : Type}

/-- The method `handleError`. -/
def handleError (err : Error) : Response :=
  if errors.Is err ErrUserNotFound then ⟨StatusNotFound, marshalH_error err.Error⟩
  else if errors.Is err ErrEmptyField || errors.Is err ErrInvalidEmail then
    ⟨StatusBadRequest, marshalH_error err.Error⟩
  else ⟨StatusInternalServerError, marshalH_error err.Error⟩

/-- The method `GetAllUsers` of the controller. -/
def GetAllUsers (userController : UserController σ) (w : World σ) : Response × World σ :=
  let r := userController.userService.GetAllUsers w
  match r.1.2 with
  | some err => (⟨StatusInternalServerError, marshalH_error err.Error⟩, r.2)
  | none => (⟨StatusOK, marshalUsers r.1.1⟩, r.2)

end UserController

end controller

namespace service

/-- A database whose `users` table holds no rows and whose statements do not fail: the list
query yields no row and no error, a single-row query selects nothing, a statement runs. -/
def emptyTableDB : sql.DB Unit :=
  { QueryContext := fun _ _ d => (Except.ok ⟨[], none⟩, d),
    QueryRowContext := fun _ _ d =>
      (⟨Except.error sql.ErrNoRows, Except.error sql.ErrNoRows⟩, d),
    ExecContext := fun _ _ d => (none, d) }

/-- The user the tests put into the mock before a call. -/
def testUser : User :=
  { ID := 1, UUID := "123e4567-e89b-12d3-a456-426614174000", Username := "test_user",
    Email := "test@example.com", FullName := "Test User" }

/-- The world of a test that has stored `testUser`: `mockRepo.users[user.UUID] = user`. -/
def testWorld : World mockUserRepository :=
  ⟨{ newMockUserRepository with users := UserMap.set [] testUser.UUID testUser }, []⟩

/-- A storage failure: the error of a driver that has lost its connection. -/
def connError : Error := Error.other "driver: bad connection"

/-- A database that answers single-row reads with the row of `testUser` and then breaks: the
list query yields that row and then stops with `connError` in `rows.Err()`, the row returned by
an `INSERT` cannot be scanned, and every statement run with `ExecContext` fails. -/
def brokenDB : sql.DB Unit :=
  { QueryContext := fun _ _ d => (Except.ok ⟨[Except.ok testUser], some connError⟩, d),
    QueryRowContext := fun _ _ d => (⟨Except.ok testUser, Except.error connError⟩, d),
    ExecContext := fun _ _ d => (some connError, d) }

/-- One call of a mutating operation of the service, with its arguments. -/
inductive Op where
  | CreateUser (request : CreateUserRequest)
  | UpdateUser (uuid : String) (request : UpdateUserRequest)
  | DeleteUser (uuid : String)

/-- The world a call leaves behind. -/
def Op.run {σ : Type} (svc : userService σ) (op : Op) (w : World σ) : World σ :=
  match op with
  | Op.CreateUser request => (userService.CreateUser svc request w).2
  | Op.UpdateUser uuid request => (userService.UpdateUser svc uuid request w).2
  | Op.DeleteUser uuid => (userService.DeleteUser svc uuid w).2

/-- The world a sequence of calls leaves behind, the calls made one after the other. -/
def runOps {σ : Type} (svc : userService σ) : List Op → World σ → World σ
  | [], w => w
  | op :: ops, w => runOps svc ops (op.run svc w)

end service

open service service.userService

/-! ## Basic facts -/

section basics

variable {σ : Type}

theorem validateNonEmpty_blank {value : String} (h : strings.TrimSpace value = "") :
    validateNonEmpty value = some ErrEmptyField := by
  simp [validateNonEmpty, h]

theorem validateNonEmpty_nonblank {value : String} (h : strings.TrimSpace value ≠ "") :
    validateNonEmpty value = none := by
  simp [validateNonEmpty, h]

/-- Never both nil: without an error `validateUserExists` returns a user. -/
theorem validateUserExists_nil_error (user : Option User) (err : Option Error)
    (h : (validateUserExists user err).2 = none) : (validateUserExists user err).1 ≠ none := by
  cases err <;> cases user <;> simp_all [validateUserExists]

theorem validateUserExists_found (u : User) :
    validateUserExists (some u) none = (some u, none) := rfl

theorem validateUserExists_absent :
    validateUserExists none none = (none, some ErrUserNotFound) := rfl

theorem validateUserExists_error (user : Option User) (e : Error) :
    validateUserExists user (some e) = (none, some e) := rfl

theorem Is_self (e : Error) : errors.Is e e = true := by
  cases e <;> simp [errors.Is]

/-- For a target that is not itself a wrapping, `errors.Is` looks through a wrapping. -/
theorem Is_wrap_sentinel (msg : String) (e target : Error)
    (h : ∀ m x, target ≠ Error.wrap m x) :
    errors.Is (Error.wrap msg e) target = errors.Is e target := by
  rw [errors.Is]
  simp [(h msg e).symm]

theorem Is_Errorf_ErrEmptyField (fieldName : String) :
    errors.Is (fmt.Errorf_s_w fieldName ErrEmptyField) ErrEmptyField = true := by
  simp [fmt.Errorf_s_w, errors.Is, ErrEmptyField]

/-- The part of the email rule of `UpdateUser` that the code enforces: an email that is not
blank after trimming and that the parser rejects is refused. -/
theorem validateUpdateRequest_invalid (svc : userService σ) (request : UpdateUserRequest)
    (hne : strings.TrimSpace request.Email ≠ "")
    (hbad : isValidEmail svc.ParseAddress request.Email = false) :
    validateUpdateRequest svc request = some ErrInvalidEmail := by
  simp [validateUpdateRequest, hne, hbad]

/-- An email that is blank after trimming is not checked against the parser at all. -/
theorem validateUpdateRequest_blank (svc : userService σ) (request : UpdateUserRequest)
    (hblank : strings.TrimSpace request.Email = "") :
    validateUpdateRequest svc request = none := by
  simp [validateUpdateRequest, hblank]

/-- A string is blank after trimming exactly when all its characters are white space. -/
theorem TrimSpace_eq_empty_iff (s : String) :
    strings.TrimSpace s = "" ↔ ∀ c ∈ s.data, strings.isSpace c = true := by
  unfold strings.TrimSpace
  rw [String.ext_iff]
  show ((s.data.dropWhile strings.isSpace).reverse.dropWhile strings.isSpace).reverse = [] ↔ _
  simp only [List.reverse_eq_nil_iff, List.dropWhile_eq_nil_iff, List.mem_reverse]
  constructor
  · intro h
    by_cases hd : s.data.dropWhile strings.isSpace = []
    · exact List.dropWhile_eq_nil_iff.mp hd
    · have h1 := List.head_dropWhile_not strings.isSpace s.data hd
      have h2 := h _ (List.head_mem hd)
      simp [h1] at h2
  · intro h c hc
    have hd : s.data.dropWhile strings.isSpace = [] := List.dropWhile_eq_nil_iff.mpr h
    simp [hd] at hc

theorem UserMap.get_set_self (m : UserMap) (k : String) (v : User) :
    (m.set k v).get k = some v := by
  induction m with
  | nil => simp [UserMap.set, UserMap.get]
  | cons p m ih =>
    obtain ⟨k1, v1⟩ := p
    by_cases h : k1 = k <;> simp [UserMap.set, UserMap.get, h, ih]

theorem UserMap.get_set_of_ne (m : UserMap) (k k2 : String) (v : User) (hne : k2 ≠ k) :
    (m.set k v).get k2 = m.get k2 := by
  induction m with
  | nil => simp [UserMap.set, UserMap.get, Ne.symm hne]
  | cons p m ih =>
    obtain ⟨k1, v1⟩ := p
    by_cases h : k1 = k
    · subst h
      simp [UserMap.set, UserMap.get, Ne.symm hne]
    · by_cases h2 : k1 = k2
      · subst h2
        simp [UserMap.set, UserMap.get, h]
      · simp [UserMap.set, UserMap.get, h, h2, ih]

theorem UserMap.get_delete_self (m : UserMap) (k : String) : (m.delete k).get k = none := by
  induction m with
  | nil => simp [UserMap.delete, UserMap.get]
  | cons p m ih =>
    obtain ⟨k1, v1⟩ := p
    by_cases h : k1 = k <;> simp [UserMap.delete, UserMap.get, h, ih]

theorem UserMap.get_delete_of_ne (m : UserMap) (k k2 : String) (hne : k2 ≠ k) :
    (m.delete k).get k2 = m.get k2 := by
  induction m with
  | nil => simp [UserMap.delete, UserMap.get]
  | cons p m ih =>
    obtain ⟨k1, v1⟩ := p
    by_cases h : k1 = k
    · subst h
      simp [UserMap.delete, UserMap.get, Ne.symm hne, ih]
    · by_cases h2 : k1 = k2
      · subst h2
        simp [UserMap.delete, UserMap.get, h]
      · simp [UserMap.delete, UserMap.get, h, h2, ih]

/-- The identifiers the mock hands out are not empty and not blank. -/
theorem generateMockUUID_nonblank (id : Int) :
    generateMockUUID id ≠ "" ∧ strings.TrimSpace (generateMockUUID id) ≠ "" := by
  have hmem : Char.ofNat 49 ∈ (generateMockUUID id).data := by
    simp [generateMockUUID, String.data_append]
  constructor
  · intro h
    rw [h] at hmem
    simp at hmem
  · intro h
    have := (TrimSpace_eq_empty_iff _).mp h _ hmem
    revert this
    decide

end basics

/-! ## CreateUser: the order of the checks -/

section create

variable {σ : Type}

/-- C1: `CreateUser` fails with EmptyField (wrapped with the field name) if the username is
blank after trimming; otherwise with EmptyField if the email is blank after trimming; otherwise
with InvalidEmail if the parser rejects the email.  The first failing check wins: the first
case holds whatever the email is.  In each case the user is nil and the world is unchanged, so
no repository method, `Create` included, has been invoked. -/
theorem C1_CreateUser_first_failing_check (svc : userService σ) (request : CreateUserRequest)
    (w : World σ) :
    (strings.TrimSpace request.Username = "" →
      ∃ err, CreateUser svc request w = ((none, some err), w) ∧
        errors.Is err ErrEmptyField = true ∧ errors.Is err ErrInvalidEmail = false ∧
        err.Error = "username: required field is empty") ∧
    (strings.TrimSpace request.Username ≠ "" → strings.TrimSpace request.Email = "" →
      ∃ err, CreateUser svc request w = ((none, some err), w) ∧
        errors.Is err ErrEmptyField = true ∧ errors.Is err ErrInvalidEmail = false ∧
        err.Error = "email: required field is empty") ∧
    (strings.TrimSpace request.Username ≠ "" → strings.TrimSpace request.Email ≠ "" →
      isValidEmail svc.ParseAddress request.Email = false →
      CreateUser svc request w = ((none, some ErrInvalidEmail), w) ∧
        errors.Is ErrInvalidEmail ErrEmptyField = false) := by
  refine ⟨fun hu => ?_, fun hu he => ?_, fun hu he hbad => ?_⟩
  · refine ⟨fmt.Errorf_s_w "username" ErrEmptyField, ?_, by decide, by decide, by decide⟩
    simp [CreateUser, validateCreateRequest, validateRequiredField, hu]
  · refine ⟨fmt.Errorf_s_w "email" ErrEmptyField, ?_, by decide, by decide, by decide⟩
    simp [CreateUser, validateCreateRequest, validateRequiredField, hu, he]
  · refine ⟨?_, by decide⟩
    simp [CreateUser, validateCreateRequest, validateRequiredField, hu, he, hbad]

/-- C1 at the requests of the tests, over a fresh mock: a blank username with an invalid email,
a blank email, and the email `invalid-email`. -/
theorem C1_CreateUser_first_failing_check_witness :
    (∃ err, CreateUser setupTest.2 ⟨" ", "invalid-email", "Test"⟩ setupTest.1
        = ((none, some err), setupTest.1) ∧
      errors.Is err ErrEmptyField = true ∧ errors.Is err ErrInvalidEmail = false ∧
      err.Error = "username: required field is empty") ∧
    (∃ err, CreateUser setupTest.2 ⟨"test_user", "", "Test"⟩ setupTest.1
        = ((none, some err), setupTest.1) ∧
      errors.Is err ErrEmptyField = true ∧ errors.Is err ErrInvalidEmail = false ∧
      err.Error = "email: required field is empty") ∧
    (CreateUser setupTest.2 ⟨"test_user", "invalid-email", "Test"⟩ setupTest.1
        = ((none, some ErrInvalidEmail), setupTest.1) ∧
      errors.Is ErrInvalidEmail ErrEmptyField = false) :=
  ⟨(C1_CreateUser_first_failing_check setupTest.2 ⟨" ", "invalid-email", "Test"⟩ setupTest.1).1
      (by decide),
    (C1_CreateUser_first_failing_check setupTest.2 ⟨"test_user", "", "Test"⟩ setupTest.1).2.1
      (by decide) (by decide),
    (C1_CreateUser_first_failing_check setupTest.2 ⟨"test_user", "invalid-email", "Test"⟩
      setupTest.1).2.2 (by decide) (by decide) (by decide)⟩

end create

/-! ## UpdateUser: the merge -/

section update

variable {σ : Type}

/-- The record `UpdateUser` builds from the stored one and the request. -/
theorem UpdateUser_accepted (svc : userService σ) (uuid : String) (request : UpdateUserRequest)
    (w : World σ) (existing : User) (s1 : σ)
    (hget : svc.userRepository.GetByUUID uuid w.store = ((some existing, none), s1))
    (hacc : (UpdateUser svc uuid request w).1.2 = none) :
    UpdateUser svc uuid request w =
      ((some { existing with
          Username := updateFieldIfProvided existing.Username request.Username,
          Email := updateFieldIfProvided existing.Email request.Email,
          FullName := updateFieldIfProvided existing.FullName request.FullName }, none),
        (svc.userRepository.callUpdate uuid
          { existing with
            Username := updateFieldIfProvided existing.Username request.Username,
            Email := updateFieldIfProvided existing.Email request.Email,
            FullName := updateFieldIfProvided existing.FullName request.FullName }
          ⟨s1, w.calls ++ [Call.GetByUUID uuid]⟩).2) := by
  unfold UpdateUser at hacc ⊢
  cases hv : validateNonEmpty uuid with
  | some e => simp [hv] at hacc
  | none =>
    simp only [hv, UserRepository.callGetByUUID, hget, validateUserExists_found] at hacc ⊢
    cases hr : validateUpdateRequest svc request with
    | some e => simp [hr] at hacc
    | none =>
      simp only [hr] at hacc ⊢
      split at hacc
      · simp at hacc
      · rename_i hu
        simp [hu]

/-- C2: when the repository holds `existing` under `uuid` and `UpdateUser` accepts the request
(returns no error), the record it returns has, for each of username, email and full name, the
value of the request if that is a non-empty string and the value of `existing` otherwise; its
id and UUID are those of `existing`; and it is the record persisted: the calls made are the
lookup and one `Update` of `uuid` with exactly that record. -/
theorem C2_UpdateUser_changes_exactly_supplied_fields (svc : userService σ) (uuid : String)
    (request : UpdateUserRequest) (w : World σ) (existing : User) (s1 : σ)
    (hget : svc.userRepository.GetByUUID uuid w.store = ((some existing, none), s1))
    (hacc : (UpdateUser svc uuid request w).1.2 = none) :
    ∃ updated : User,
      (UpdateUser svc uuid request w).1.1 = some updated ∧
      updated.Username
        = (if request.Username ≠ "" then request.Username else existing.Username) ∧
      updated.Email = (if request.Email ≠ "" then request.Email else existing.Email) ∧
      updated.FullName
        = (if request.FullName ≠ "" then request.FullName else existing.FullName) ∧
      updated.ID = existing.ID ∧ updated.UUID = existing.UUID ∧
      (UpdateUser svc uuid request w).2.calls
        = w.calls ++ [Call.GetByUUID uuid, Call.Update uuid updated] := by
  rw [UpdateUser_accepted svc uuid request w existing s1 hget hacc]
  exact ⟨_, rfl, rfl, rfl, rfl, rfl, rfl, by simp [UserRepository.callUpdate]⟩

/-- C2 at `TestShouldPartiallyUpdateUser`: only the email is supplied. -/
theorem C2_UpdateUser_changes_exactly_supplied_fields_witness :
    ∃ updated : User,
      (UpdateUser setupTest.2 testUser.UUID ⟨"", "newemail@example.com", ""⟩ testWorld).1.1
        = some updated ∧
      updated.Username = (if "" ≠ "" then "" else testUser.Username) ∧
      updated.Email
        = (if "newemail@example.com" ≠ "" then "newemail@example.com" else testUser.Email) ∧
      updated.FullName = (if "" ≠ "" then "" else testUser.FullName) ∧
      updated.ID = testUser.ID ∧ updated.UUID = testUser.UUID ∧
      (UpdateUser setupTest.2 testUser.UUID ⟨"", "newemail@example.com", ""⟩ testWorld).2.calls
        = testWorld.calls ++ [Call.GetByUUID testUser.UUID, Call.Update testUser.UUID updated] :=
  C2_UpdateUser_changes_exactly_supplied_fields setupTest.2 testUser.UUID
    ⟨"", "newemail@example.com", ""⟩ testWorld testUser testWorld.store (by decide) (by decide)

/-- Where the email rule of `UpdateUser` holds: for a non-blank `uuid` of a stored user, an
email that is not blank after trimming and that the parser rejects makes `UpdateUser` fail with
InvalidEmail and a nil user, after the lookup and without a call of `Update`. -/
theorem UpdateUser_invalid_email (svc : userService σ) (uuid : String)
    (request : UpdateUserRequest) (w : World σ) (existing : User) (s1 : σ)
    (huuid : strings.TrimSpace uuid ≠ "")
    (hget : svc.userRepository.GetByUUID uuid w.store = ((some existing, none), s1))
    (hne : strings.TrimSpace request.Email ≠ "")
    (hbad : isValidEmail svc.ParseAddress request.Email = false) :
    UpdateUser svc uuid request w
      = ((none, some ErrInvalidEmail), ⟨s1, w.calls ++ [Call.GetByUUID uuid]⟩) := by
  simp [UpdateUser, validateNonEmpty_nonblank huuid, UserRepository.callGetByUUID, hget,
    validateUserExists_found, validateUpdateRequest_invalid svc request hne hbad]

/-- Where the email rule of `UpdateUser` is not enforced: an email made of white space only is
a non-empty string, is never shown to the parser, and is written over the stored email. -/
theorem UpdateUser_whitespace_email (svc : userService σ) (uuid : String)
    (request : UpdateUserRequest) (w : World σ) (existing : User) (s1 : σ)
    (huuid : strings.TrimSpace uuid ≠ "")
    (hget : svc.userRepository.GetByUUID uuid w.store = ((some existing, none), s1))
    (hblank : strings.TrimSpace request.Email = "") (hne : request.Email ≠ "")
    (hupd : (svc.userRepository.Update uuid
      { existing with
        Username := updateFieldIfProvided existing.Username request.Username,
        Email := request.Email,
        FullName := updateFieldIfProvided existing.FullName request.FullName } s1).1 = none) :
    (UpdateUser svc uuid request w).1
      = (some { existing with
          Username := updateFieldIfProvided existing.Username request.Username,
          Email := request.Email,
          FullName := updateFieldIfProvided existing.FullName request.FullName }, none) := by
  have he : updateFieldIfProvided existing.Email request.Email = request.Email := by
    simp [updateFieldIfProvided, hne]
  simp [UpdateUser, validateNonEmpty_nonblank huuid, UserRepository.callGetByUUID, hget,
    validateUserExists_found, validateUpdateRequest_blank svc request hblank, he,
    UserRepository.callUpdate, hupd]

/-- C3, the code at the failing input: over the mock holding `testUser`, a request whose email
is one space (a non-empty string that the parser rejects) is not refused.  `UpdateUser` returns
the user with the email overwritten by the space and no error, having called `Update` with that
record, and the mock then holds it. -/
theorem C3_UpdateUser_whitespace_email_not_refused :
    (" " : String) ≠ "" ∧
    isValidEmail setupTest.2.ParseAddress " " = false ∧
    (UpdateUser setupTest.2 testUser.UUID ⟨"", " ", ""⟩ testWorld).1
      = (some { testUser with Email := " " }, none) ∧
    (UpdateUser setupTest.2 testUser.UUID ⟨"", " ", ""⟩ testWorld).2.calls
      = [Call.GetByUUID testUser.UUID,
          Call.Update testUser.UUID { testUser with Email := " " }] ∧
    (UpdateUser setupTest.2 testUser.UUID ⟨"", " ", ""⟩ testWorld).2.store.users.get
        testUser.UUID
      = some { testUser with Email := " " } := by
  decide

end update

/-! ## Create, then look up; delete, then look up -/

section mock

/-- Over a mock that is not set to fail, `CreateUser` on a valid request returns the fields of
the request with the counter of the mock as id and the UUID made from it, and `GetUserByUUID`
with the returned UUID, run on the world `CreateUser` leaves, succeeds with that same user. -/
theorem CreateUser_mock_then_GetUserByUUID (ParseAddress : AddressParser)
    (m : mockUserRepository) (calls : List Call) (request : CreateUserRequest)
    (hok : m.shouldFail = false)
    (hu : strings.TrimSpace request.Username ≠ "")
    (he : strings.TrimSpace request.Email ≠ "")
    (hvalid : isValidEmail ParseAddress request.Email = true) :
    ∃ (user : User) (w1 : World mockUserRepository),
      CreateUser (NewUserService ParseAddress mockUserRepository.repo) request ⟨m, calls⟩
        = ((some user, none), w1) ∧
      user.Username = request.Username ∧ user.Email = request.Email ∧
      user.FullName = request.FullName ∧
      user.UUID ≠ "" ∧
      user.ID = m.nextID ∧ user.UUID = generateMockUUID m.nextID ∧
      (GetUserByUUID (NewUserService ParseAddress mockUserRepository.repo) user.UUID w1).1
        = (some user, none) := by
  have hcreate :
      CreateUser (NewUserService ParseAddress mockUserRepository.repo) request ⟨m, calls⟩
        = ((some { ID := m.nextID, UUID := generateMockUUID m.nextID,
                   Username := request.Username, Email := request.Email,
                   FullName := request.FullName }, none),
            ⟨{ m with
                nextID := intIncr m.nextID,
                users := m.users.set (generateMockUUID m.nextID)
                  { ID := m.nextID, UUID := generateMockUUID m.nextID,
                    Username := request.Username, Email := request.Email,
                    FullName := request.FullName } },
              calls ++ [Call.Create (User.mk 0 "" request.Username request.Email
                request.FullName)]⟩) := by
    simp [CreateUser, NewUserService, validateCreateRequest, validateRequiredField, hu, he,
      hvalid, UserRepository.callCreate, mockUserRepository.repo, mockUserRepository.Create,
      hok]
  refine ⟨_, _, hcreate, rfl, rfl, rfl, (generateMockUUID_nonblank _).1, rfl, rfl, ?_⟩
  simp [GetUserByUUID, validateNonEmpty_nonblank (generateMockUUID_nonblank m.nextID).2,
    NewUserService, UserRepository.callGetByUUID, mockUserRepository.repo,
    mockUserRepository.GetByUUID, hok, UserMap.get_set_self, validateUserExists_found]

/-- The increment of the counter in wrapping arithmetic: one more creation after `k`. -/
theorem intIncr_wrap (k : Nat) :
    intIncr (((1 + (k : Int)) + 2 ^ 63) % 2 ^ 64 - 2 ^ 63)
      = ((1 + ((k + 1 : Nat) : Int)) + 2 ^ 63) % 2 ^ 64 - 2 ^ 63 := by
  unfold intIncr
  push_cast
  omega

/-- What `CreateUser` does to the failure switch and the counter of the mock: the switch is
left alone, the counter is left alone or incremented. -/
theorem CreateUser_mock_counter (svc : userService mockUserRepository)
    (hrepo : svc.userRepository = mockUserRepository.repo) (request : CreateUserRequest)
    (w : World mockUserRepository) :
    (CreateUser svc request w).2.store.shouldFail = w.store.shouldFail ∧
    ((CreateUser svc request w).2.store.nextID = w.store.nextID ∨
      (CreateUser svc request w).2.store.nextID = intIncr w.store.nextID) := by
  cases hv : validateCreateRequest svc request with
  | some e => simp [CreateUser, hv]
  | none =>
    cases hf : w.store.shouldFail with
    | true =>
      simp [CreateUser, hv, hrepo, UserRepository.callCreate, mockUserRepository.repo,
        mockUserRepository.Create, hf]
    | false =>
      simp [CreateUser, hv, hrepo, UserRepository.callCreate, mockUserRepository.repo,
        mockUserRepository.Create, hf]

/-- The method `UpdateUser` leaves the failure switch and the counter of the mock alone. -/
theorem UpdateUser_mock_counter (svc : userService mockUserRepository)
    (hrepo : svc.userRepository = mockUserRepository.repo) (uuid : String)
    (request : UpdateUserRequest) (w : World mockUserRepository) :
    (UpdateUser svc uuid request w).2.store.shouldFail = w.store.shouldFail ∧
    (UpdateUser svc uuid request w).2.store.nextID = w.store.nextID := by
  cases hn : validateNonEmpty uuid with
  | some e => simp [UpdateUser, hn]
  | none =>
    cases hf : w.store.shouldFail with
    | true =>
      simp [UpdateUser, hn, hrepo, UserRepository.callGetByUUID, mockUserRepository.repo,
        mockUserRepository.GetByUUID, hf, validateUserExists_error]
    | false =>
      cases hg : w.store.users.get uuid with
      | none =>
        simp [UpdateUser, hn, hrepo, UserRepository.callGetByUUID, mockUserRepository.repo,
          mockUserRepository.GetByUUID, hf, hg, validateUserExists_absent]
      | some existing =>
        cases hv : validateUpdateRequest svc request with
        | some e =>
          simp [UpdateUser, hn, hrepo, UserRepository.callGetByUUID, mockUserRepository.repo,
            mockUserRepository.GetByUUID, hf, hg, validateUserExists_found, hv]
        | none =>
          simp [UpdateUser, hn, hrepo, UserRepository.callGetByUUID, mockUserRepository.repo,
            mockUserRepository.GetByUUID, hf, hg, validateUserExists_found, hv,
            UserRepository.callUpdate, mockUserRepository.Update]

/-- The method `DeleteUser` leaves the failure switch and the counter of the mock alone. -/
theorem DeleteUser_mock_counter (svc : userService mockUserRepository)
    (hrepo : svc.userRepository = mockUserRepository.repo) (uuid : String)
    (w : World mockUserRepository) :
    (DeleteUser svc uuid w).2.store.shouldFail = w.store.shouldFail ∧
    (DeleteUser svc uuid w).2.store.nextID = w.store.nextID := by
  cases hn : validateNonEmpty uuid with
  | some e => simp [DeleteUser, hn]
  | none =>
    cases hf : w.store.shouldFail with
    | true =>
      simp [DeleteUser, hn, hrepo, UserRepository.callGetByUUID, mockUserRepository.repo,
        mockUserRepository.GetByUUID, hf, validateUserExists_error]
    | false =>
      cases hg : w.store.users.get uuid with
      | none =>
        simp [DeleteUser, hn, hrepo, UserRepository.callGetByUUID, mockUserRepository.repo,
          mockUserRepository.GetByUUID, hf, hg, validateUserExists_absent]
      | some existing =>
        simp [DeleteUser, hn, hrepo, UserRepository.callGetByUUID, mockUserRepository.repo,
          mockUserRepository.GetByUUID, hf, hg, validateUserExists_found,
          UserRepository.callDelete, mockUserRepository.Delete]

/-- The counter of the mock along a sequence of calls: if the mock is not set to fail and its
counter stands where at most `n` creations after the first value 1 put it (in the wrapping
arithmetic of a 64-bit `int`), then after the calls `ops` the mock is still not set to fail and
its counter stands where at most `n + ops.length` creations put it. -/
theorem runOps_mock_counter (svc : userService mockUserRepository)
    (hrepo : svc.userRepository = mockUserRepository.repo) (ops : List Op)
    (w : World mockUserRepository) (n : Nat) (hok : w.store.shouldFail = false)
    (hcount : ∃ k : Nat, k ≤ n ∧
      w.store.nextID = ((1 + (k : Int)) + 2 ^ 63) % 2 ^ 64 - 2 ^ 63) :
    (runOps svc ops w).store.shouldFail = false ∧
    ∃ k : Nat, k ≤ n + ops.length ∧
      (runOps svc ops w).store.nextID = ((1 + (k : Int)) + 2 ^ 63) % 2 ^ 64 - 2 ^ 63 := by
  induction ops generalizing w n with
  | nil => exact ⟨hok, hcount⟩
  | cons op ops ih =>
    obtain ⟨k, hk, hnext⟩ := hcount
    have hstep : (op.run svc w).store.shouldFail = false ∧
        ∃ k1 : Nat, k1 ≤ n + 1 ∧
          (op.run svc w).store.nextID = ((1 + (k1 : Int)) + 2 ^ 63) % 2 ^ 64 - 2 ^ 63 := by
      cases op with
      | CreateUser request =>
        obtain ⟨hsf, hid⟩ := CreateUser_mock_counter svc hrepo request w
        refine ⟨by simp only [Op.run, hsf, hok], ?_⟩
        rcases hid with hid | hid
        · exact ⟨k, by omega, by simp only [Op.run, hid, hnext]⟩
        · exact ⟨k + 1, by omega, by simp only [Op.run, hid, hnext, intIncr_wrap]⟩
      | UpdateUser uuid request =>
        obtain ⟨hsf, hid⟩ := UpdateUser_mock_counter svc hrepo uuid request w
        exact ⟨by simp only [Op.run, hsf, hok],
          k, by omega, by simp only [Op.run, hid, hnext]⟩
      | DeleteUser uuid =>
        obtain ⟨hsf, hid⟩ := DeleteUser_mock_counter svc hrepo uuid w
        exact ⟨by simp only [Op.run, hsf, hok],
          k, by omega, by simp only [Op.run, hid, hnext]⟩
    obtain ⟨hok1, hcount1⟩ := hstep
    obtain ⟨hok2, k2, hk2, hnext2⟩ := ih (op.run svc w) (n + 1) hok1 hcount1
    refine ⟨hok2, k2, ?_, hnext2⟩
    simp only [List.length_cons]
    omega

/-- C4: take the mock as `newMockUserRepository` builds it (counter 1, not set to fail), with
any users put into its map, and let any sequence of fewer than 2^64 - 1 calls of `CreateUser`,
`UpdateUser` and `DeleteUser` run on it.  On the store so reached, `CreateUser` on a request
with a non-blank username and a non-blank email the parser accepts succeeds and returns a user
with the username, email and full name of the request, a non-zero id and a non-empty UUID, both
assigned by the mock; and `GetUserByUUID` with the returned UUID, run on the world `CreateUser`
leaves, succeeds with that same user.  The id is non-zero because the counter starts at 1 and
only `Create` moves it, by one; the bound on the number of calls is where a 64-bit counter
would wrap around to 0. -/
theorem C4_CreateUser_then_GetUserByUUID (ParseAddress : AddressParser) (users0 : UserMap)
    (calls : List Call) (ops : List Op) (request : CreateUserRequest)
    (hlen : ops.length < 2 ^ 64 - 1)
    (hu : strings.TrimSpace request.Username ≠ "")
    (he : strings.TrimSpace request.Email ≠ "")
    (hvalid : isValidEmail ParseAddress request.Email = true) :
    ∃ (user : User) (w1 : World mockUserRepository),
      CreateUser (NewUserService ParseAddress mockUserRepository.repo) request
          (runOps (NewUserService ParseAddress mockUserRepository.repo) ops
            ⟨{ newMockUserRepository with users := users0 }, calls⟩)
        = ((some user, none), w1) ∧
      user.Username = request.Username ∧ user.Email = request.Email ∧
      user.FullName = request.FullName ∧
      user.ID ≠ 0 ∧ user.UUID ≠ "" ∧
      (GetUserByUUID (NewUserService ParseAddress mockUserRepository.repo) user.UUID w1).1
        = (some user, none) := by
  obtain ⟨hok, k, hk, hnext⟩ :=
    runOps_mock_counter (NewUserService ParseAddress mockUserRepository.repo) rfl ops
      ⟨{ newMockUserRepository with users := users0 }, calls⟩ 0 rfl
      ⟨0, le_refl 0, by
        show (1 : Int) = ((1 + ((0 : Nat) : Int)) + 2 ^ 63) % 2 ^ 64 - 2 ^ 63
        decide⟩
  obtain ⟨user, w1, hcreate, h1, h2, h3, h4, h5, _, h7⟩ :=
    CreateUser_mock_then_GetUserByUUID ParseAddress
      (runOps (NewUserService ParseAddress mockUserRepository.repo) ops
        ⟨{ newMockUserRepository with users := users0 }, calls⟩).store
      (runOps (NewUserService ParseAddress mockUserRepository.repo) ops
        ⟨{ newMockUserRepository with users := users0 }, calls⟩).calls
      request hok hu he hvalid
  refine ⟨user, w1, hcreate, h1, h2, h3, ?_, h4, h7⟩
  rw [h5, hnext]
  omega

/-- C4 after one earlier creation: on the fresh mock `alice` is created first, then the request
of `TestShouldCreateUser`. -/
theorem C4_CreateUser_then_GetUserByUUID_witness :
    ∃ (user : User) (w1 : World mockUserRepository),
      CreateUser (NewUserService exampleParseAddress mockUserRepository.repo)
          ⟨"newuser", "newuser@example.com", "New User"⟩
          (runOps (NewUserService exampleParseAddress mockUserRepository.repo)
            [Op.CreateUser ⟨"alice", "alice@example.com", ""⟩]
            ⟨{ newMockUserRepository with users := [] }, []⟩)
        = ((some user, none), w1) ∧
      user.Username = "newuser" ∧ user.Email = "newuser@example.com" ∧
      user.FullName = "New User" ∧
      user.ID ≠ 0 ∧ user.UUID ≠ "" ∧
      (GetUserByUUID (NewUserService exampleParseAddress mockUserRepository.repo) user.UUID
          w1).1
        = (some user, none) :=
  C4_CreateUser_then_GetUserByUUID exampleParseAddress [] []
    [Op.CreateUser ⟨"alice", "alice@example.com", ""⟩]
    ⟨"newuser", "newuser@example.com", "New User"⟩ (by decide) (by decide) (by decide)
    (by decide)

/-- C5: over a mock that is not set to fail, `DeleteUser` on the non-blank UUID of a stored user
succeeds and removes that user and no other; on the world it leaves, `GetUserByUUID` on the
same UUID fails with NotFound and a nil user, and a second `DeleteUser` on the same UUID fails
with NotFound, after the lookup alone. -/
theorem C5_DeleteUser_removes (ParseAddress : AddressParser) (m : mockUserRepository)
    (calls : List Call) (uuid : String) (user : User)
    (hok : m.shouldFail = false) (huuid : strings.TrimSpace uuid ≠ "")
    (hex : m.users.get uuid = some user) :
    (DeleteUser (NewUserService ParseAddress mockUserRepository.repo) uuid ⟨m, calls⟩).1
      = none ∧
    (DeleteUser (NewUserService ParseAddress mockUserRepository.repo) uuid
      ⟨m, calls⟩).2.store.users.get uuid = none ∧
    (∀ k, k ≠ uuid →
      (DeleteUser (NewUserService ParseAddress mockUserRepository.repo) uuid
        ⟨m, calls⟩).2.store.users.get k = m.users.get k) ∧
    (GetUserByUUID (NewUserService ParseAddress mockUserRepository.repo) uuid
      (DeleteUser (NewUserService ParseAddress mockUserRepository.repo) uuid ⟨m, calls⟩).2).1
      = (none, some ErrUserNotFound) ∧
    DeleteUser (NewUserService ParseAddress mockUserRepository.repo) uuid
      (DeleteUser (NewUserService ParseAddress mockUserRepository.repo) uuid ⟨m, calls⟩).2
      = (some ErrUserNotFound,
          ⟨{ m with users := m.users.delete uuid },
            calls ++ [Call.GetByUUID uuid, Call.Delete uuid, Call.GetByUUID uuid]⟩) := by
  have hdel : DeleteUser (NewUserService ParseAddress mockUserRepository.repo) uuid ⟨m, calls⟩
      = (none, ⟨{ m with users := m.users.delete uuid },
          calls ++ [Call.GetByUUID uuid, Call.Delete uuid]⟩) := by
    simp [DeleteUser, validateNonEmpty_nonblank huuid, NewUserService,
      UserRepository.callGetByUUID, UserRepository.callDelete, mockUserRepository.repo,
      mockUserRepository.GetByUUID, mockUserRepository.Delete, hok, hex,
      validateUserExists_found]
  rw [hdel]
  refine ⟨rfl, UserMap.get_delete_self _ _, fun k hk => UserMap.get_delete_of_ne _ _ _ hk, ?_, ?_⟩
  · simp [GetUserByUUID, validateNonEmpty_nonblank huuid, NewUserService,
      UserRepository.callGetByUUID, mockUserRepository.repo, mockUserRepository.GetByUUID, hok,
      UserMap.get_delete_self, validateUserExists_absent]
  · simp [DeleteUser, validateNonEmpty_nonblank huuid, NewUserService,
      UserRepository.callGetByUUID, mockUserRepository.repo, mockUserRepository.GetByUUID, hok,
      UserMap.get_delete_self, validateUserExists_absent]

/-- C5 at `TestShouldDeleteUser`: the mock holding `testUser`. -/
theorem C5_DeleteUser_removes_witness :
    (DeleteUser (NewUserService exampleParseAddress mockUserRepository.repo) testUser.UUID
      ⟨testWorld.store, []⟩).1 = none ∧
    (DeleteUser (NewUserService exampleParseAddress mockUserRepository.repo) testUser.UUID
      ⟨testWorld.store, []⟩).2.store.users.get testUser.UUID = none ∧
    (∀ k, k ≠ testUser.UUID →
      (DeleteUser (NewUserService exampleParseAddress mockUserRepository.repo) testUser.UUID
        ⟨testWorld.store, []⟩).2.store.users.get k = testWorld.store.users.get k) ∧
    (GetUserByUUID (NewUserService exampleParseAddress mockUserRepository.repo) testUser.UUID
      (DeleteUser (NewUserService exampleParseAddress mockUserRepository.repo) testUser.UUID
        ⟨testWorld.store, []⟩).2).1
      = (none, some ErrUserNotFound) ∧
    DeleteUser (NewUserService exampleParseAddress mockUserRepository.repo) testUser.UUID
      (DeleteUser (NewUserService exampleParseAddress mockUserRepository.repo) testUser.UUID
        ⟨testWorld.store, []⟩).2
      = (some ErrUserNotFound,
          ⟨{ testWorld.store with users := testWorld.store.users.delete testUser.UUID },
            [] ++ [Call.GetByUUID testUser.UUID, Call.Delete testUser.UUID,
              Call.GetByUUID testUser.UUID]⟩) :=
  C5_DeleteUser_removes exampleParseAddress testWorld.store [] testUser.UUID testUser
    (by decide) (by decide) (by decide)

/-- The same first half over the SQL repository: when the `INSERT ... RETURNING id, uuid` row
scans into `id` and `uuid`, `CreateUser` on a valid request returns the fields of the request
with that id and UUID. -/
theorem CreateUser_sql {δ : Type} (db : sql.DB δ) (ParseAddress : AddressParser)
    (request : CreateUserRequest) (w : World δ) (id : Int) (uuid : String)
    (hu : strings.TrimSpace request.Username ≠ "")
    (he : strings.TrimSpace request.Email ≠ "")
    (hvalid : isValidEmail ParseAddress request.Email = true)
    (hinsert : (db.QueryRowContext
      "INSERT INTO users (username, email, full_name) VALUES ($1, $2, $3) RETURNING id, uuid"
      [sql.Value.text request.Username, sql.Value.text request.Email,
        sql.Value.text request.FullName] w.store).1.scanIDUUID = Except.ok (id, uuid)) :
    (CreateUser (NewUserService ParseAddress (NewUserRepository db)) request w).1
      = (some { ID := id, UUID := uuid, Username := request.Username, Email := request.Email,
                FullName := request.FullName }, none) := by
  simp [CreateUser, NewUserService, validateCreateRequest, validateRequiredField, hu, he,
    hvalid, UserRepository.callCreate, NewUserRepository, userRepository.Create, hinsert]

/-- The second half over the SQL repository: when the `INSERT` row scans into `id` and a
non-blank `uuid`, and the database then answers the select by that `uuid` with the inserted
row, `GetUserByUUID` with the returned UUID, run on the world `CreateUser` leaves, succeeds
with the user `CreateUser` returned. -/
theorem CreateUser_sql_then_GetUserByUUID {δ : Type} (db : sql.DB δ)
    (ParseAddress : AddressParser) (request : CreateUserRequest) (w : World δ) (id : Int)
    (uuid : String)
    (hu : strings.TrimSpace request.Username ≠ "")
    (he : strings.TrimSpace request.Email ≠ "")
    (hvalid : isValidEmail ParseAddress request.Email = true)
    (huuid : strings.TrimSpace uuid ≠ "")
    (hinsert : (db.QueryRowContext
      "INSERT INTO users (username, email, full_name) VALUES ($1, $2, $3) RETURNING id, uuid"
      [sql.Value.text request.Username, sql.Value.text request.Email,
        sql.Value.text request.FullName] w.store).1.scanIDUUID = Except.ok (id, uuid))
    (hselect : (db.QueryRowContext (userRepository.buildSelectQuery "uuid = $1")
      [sql.Value.text uuid]
      (CreateUser (NewUserService ParseAddress (NewUserRepository db)) request
        w).2.store).1.scanUser
      = Except.ok (User.mk id uuid request.Username request.Email request.FullName)) :
    (GetUserByUUID (NewUserService ParseAddress (NewUserRepository db)) uuid
      (CreateUser (NewUserService ParseAddress (NewUserRepository db)) request w).2).1
      = (CreateUser (NewUserService ParseAddress (NewUserRepository db)) request w).1 := by
  rw [CreateUser_sql db ParseAddress request w id uuid hu he hvalid hinsert]
  simp only [GetUserByUUID, validateNonEmpty_nonblank huuid, UserRepository.callGetByUUID,
    NewUserService, NewUserRepository, userRepository.GetByUUID, userRepository.scanUserRow]
  simp only [NewUserService, NewUserRepository] at hselect
  rw [hselect]
  rfl

end mock

/-! ## The order of the checks on the UUID paths, and the lookups -/

section lookups

variable {σ : Type}

/-- C6: for a UUID that is empty or all white space, `GetUserByUUID`, `UpdateUser` (with any
request) and `DeleteUser` each fail with the sentinel EmptyField and leave the world as it
was: the call log has not grown, so no repository method was invoked, and the store is
unchanged.  This holds for every repository, one that would fail included. -/
theorem C6_blank_uuid_rejected_before_querying (svc : userService σ) (uuid : String)
    (request : UpdateUserRequest) (w : World σ) (hblank : strings.TrimSpace uuid = "") :
    GetUserByUUID svc uuid w = ((none, some ErrEmptyField), w) ∧
    UpdateUser svc uuid request w = ((none, some ErrEmptyField), w) ∧
    DeleteUser svc uuid w = (some ErrEmptyField, w) := by
  simp [GetUserByUUID, UpdateUser, DeleteUser, validateNonEmpty_blank hblank]

/-- C6 over a mock set to fail, with the empty UUID and a UUID of white space. -/
theorem C6_blank_uuid_rejected_before_querying_witness :
    (GetUserByUUID setupTest.2 ""
        ⟨{ newMockUserRepository with shouldFail := true }, []⟩
      = ((none, some ErrEmptyField), ⟨{ newMockUserRepository with shouldFail := true }, []⟩) ∧
    UpdateUser setupTest.2 "" ⟨"updateduser", "updated@example.com", ""⟩
        ⟨{ newMockUserRepository with shouldFail := true }, []⟩
      = ((none, some ErrEmptyField), ⟨{ newMockUserRepository with shouldFail := true }, []⟩) ∧
    DeleteUser setupTest.2 "" ⟨{ newMockUserRepository with shouldFail := true }, []⟩
      = (some ErrEmptyField, ⟨{ newMockUserRepository with shouldFail := true }, []⟩)) ∧
    DeleteUser setupTest.2 " \t " testWorld = (some ErrEmptyField, testWorld) :=
  ⟨C6_blank_uuid_rejected_before_querying setupTest.2 "" ⟨"updateduser", "updated@example.com", ""⟩
      ⟨{ newMockUserRepository with shouldFail := true }, []⟩ (by decide),
    (C6_blank_uuid_rejected_before_querying setupTest.2 " \t " ⟨"", "", ""⟩ testWorld
      (by decide)).2.2⟩

/-- C7: for a non-blank UUID for which the repository reports no row and no error, `UpdateUser`
fails with the sentinel NotFound whatever the request is (its email may be invalid), and
`DeleteUser` fails with NotFound; in both the only repository call made is the lookup, so
neither `Update` nor `Delete` is invoked. -/
theorem C7_existence_check_precedes (svc : userService σ) (uuid : String)
    (request : UpdateUserRequest) (w : World σ) (s1 : σ)
    (huuid : strings.TrimSpace uuid ≠ "")
    (hget : svc.userRepository.GetByUUID uuid w.store = ((none, none), s1)) :
    UpdateUser svc uuid request w
      = ((none, some ErrUserNotFound), ⟨s1, w.calls ++ [Call.GetByUUID uuid]⟩) ∧
    DeleteUser svc uuid w = (some ErrUserNotFound, ⟨s1, w.calls ++ [Call.GetByUUID uuid]⟩) ∧
    errors.Is ErrUserNotFound ErrInvalidEmail = false := by
  refine ⟨?_, ?_, by decide⟩
  · simp [UpdateUser, validateNonEmpty_nonblank huuid, UserRepository.callGetByUUID, hget,
      validateUserExists_absent]
  · simp [DeleteUser, validateNonEmpty_nonblank huuid, UserRepository.callGetByUUID, hget,
      validateUserExists_absent]

/-- C7 at `TestShouldReturnErrorWhenUpdateNonExistentUser`, with an invalid email in the
request: a fresh mock and the UUID `nonexistent-uuid`. -/
theorem C7_existence_check_precedes_witness :
    UpdateUser setupTest.2 "nonexistent-uuid" ⟨"updateduser", "invalid-email", ""⟩ setupTest.1
      = ((none, some ErrUserNotFound),
          ⟨setupTest.1.store, setupTest.1.calls ++ [Call.GetByUUID "nonexistent-uuid"]⟩) ∧
    DeleteUser setupTest.2 "nonexistent-uuid" setupTest.1
      = (some ErrUserNotFound,
          ⟨setupTest.1.store, setupTest.1.calls ++ [Call.GetByUUID "nonexistent-uuid"]⟩) ∧
    errors.Is ErrUserNotFound ErrInvalidEmail = false :=
  C7_existence_check_precedes setupTest.2 "nonexistent-uuid"
    ⟨"updateduser", "invalid-email", ""⟩ setupTest.1 setupTest.1.store (by decide) (by decide)

/-- What `validateUserExists` makes of an answer of the repository: a user returned without
error is passed on; neither user nor error becomes NotFound with a nil user; conversely, if the
error of the repository (when there is one) is not NotFound, an outcome that is NotFound with a
nil user comes from an answer with neither user nor error; and an outcome without error
carries a user. -/
theorem validateUserExists_spec (user : Option User) (err : Option Error) :
    (∀ u, (user, err) = (some u, none) → validateUserExists user err = (some u, none)) ∧
    ((user, err) = (none, none) → validateUserExists user err = (none, some ErrUserNotFound)) ∧
    ((∀ e, err = some e → errors.Is e ErrUserNotFound = false) →
      (validateUserExists user err).1 = none →
      (∃ e, (validateUserExists user err).2 = some e ∧ errors.Is e ErrUserNotFound = true) →
      (user, err) = (none, none)) ∧
    ((validateUserExists user err).2 = none → (validateUserExists user err).1 ≠ none) := by
  refine ⟨?_, ?_, ?_, validateUserExists_nil_error user err⟩
  · intro u h
    simp only [Prod.mk.injEq] at h
    rw [h.1, h.2]
    rfl
  · intro h
    simp only [Prod.mk.injEq] at h
    rw [h.1, h.2]
    rfl
  · intro hstorage hnil hnf
    cases err with
    | some e =>
      have := hstorage e rfl
      simp [validateUserExists, this] at hnf
    | none =>
      cases user with
      | none => rfl
      | some u => simp [validateUserExists] at hnil

/-- C8: take the answer of the repository to a lookup and the answer of the service to the
same lookup, for `GetUserByUsername`, `GetUserByID` and `GetUserByUUID` (with a non-blank
UUID), on any world.  When the repository returns a user without error, the service returns
exactly that user without error.  When the repository returns no row and no error, the service
fails with the sentinel NotFound and a nil user; and only then, for a repository whose own
errors are not NotFound.  A lookup that reports no error never returns a nil user. -/
theorem C8_lookups_convert_absence_to_NotFound (svc : userService σ) (username : String)
    (id : Int) (uuid : String) (w : World σ) (huuid : strings.TrimSpace uuid ≠ "") :
    ∀ p ∈ [((svc.userRepository.GetByUsername username w.store).1,
              (GetUserByUsername svc username w).1),
            ((svc.userRepository.GetByID id w.store).1, (GetUserByID svc id w).1),
            ((svc.userRepository.GetByUUID uuid w.store).1, (GetUserByUUID svc uuid w).1)],
      (∀ u, p.1 = (some u, none) → p.2 = (some u, none)) ∧
      (p.1 = (none, none) → p.2 = (none, some ErrUserNotFound)) ∧
      ((∀ e, p.1.2 = some e → errors.Is e ErrUserNotFound = false) →
        p.2.1 = none → (∃ e, p.2.2 = some e ∧ errors.Is e ErrUserNotFound = true) →
        p.1 = (none, none)) ∧
      (p.2.2 = none → p.2.1 ≠ none) := by
  intro p hp
  simp only [List.mem_cons, List.mem_singleton, List.not_mem_nil, or_false] at hp
  rcases hp with rfl | rfl | rfl
  · exact validateUserExists_spec _ _
  · exact validateUserExists_spec _ _
  · simp only [GetUserByUUID, validateNonEmpty_nonblank huuid]
    exact validateUserExists_spec _ _

/-- C8 over the mock holding `testUser`: the lookup by the stored username returns the stored
user; the lookup by the id 999 fails with NotFound and a nil user; and the lookup by the stored
UUID does not, so the mock did not answer it with neither user nor error. -/
theorem C8_lookups_convert_absence_to_NotFound_witness :
    (GetUserByUsername setupTest.2 "test_user" testWorld).1 = (some testUser, none) ∧
    (GetUserByID setupTest.2 999 testWorld).1 = (none, some ErrUserNotFound) ∧
    (((GetUserByID setupTest.2 999 testWorld).1.1 = none →
      (∃ e, (GetUserByID setupTest.2 999 testWorld).1.2 = some e ∧
        errors.Is e ErrUserNotFound = true) →
      (setupTest.2.userRepository.GetByID 999 testWorld.store).1 = (none, none))) ∧
    ((GetUserByUUID setupTest.2 testUser.UUID testWorld).1.2 = none →
      (GetUserByUUID setupTest.2 testUser.UUID testWorld).1.1 ≠ none) :=
  ⟨(C8_lookups_convert_absence_to_NotFound setupTest.2 "test_user" 999 testUser.UUID testWorld
      (by decide) _ (List.mem_cons_self _ _)).1 testUser (by decide),
    (C8_lookups_convert_absence_to_NotFound setupTest.2 "test_user" 999 testUser.UUID testWorld
      (by decide) _ (List.mem_cons_of_mem _ (List.mem_cons_self _ _))).2.1 (by decide),
    (C8_lookups_convert_absence_to_NotFound setupTest.2 "test_user" 999 testUser.UUID testWorld
      (by decide) _ (List.mem_cons_of_mem _ (List.mem_cons_self _ _))).2.2.1
      (fun e h => by
        have h2 : (none : Option Error) = some e := h
        cases h2),
    (C8_lookups_convert_absence_to_NotFound setupTest.2 "test_user" 999 testUser.UUID testWorld
      (by decide) _
      (List.mem_cons_of_mem _ (List.mem_cons_of_mem _ (List.mem_cons_self _ _)))).2.2.2⟩

end lookups

/-! ## The controller -/

section handler

open controller controller.UserController

/-- A chain of wrappings ends in one error, so it matches at most one of two different
sentinels. -/
theorem Is_sentinel_exclusive (a b : Error) (ha : ∀ m x, a ≠ Error.wrap m x)
    (hb : ∀ m x, b ≠ Error.wrap m x) (hab : a ≠ b) (e : Error)
    (h : errors.Is e a = true) : errors.Is e b = false := by
  induction e with
  | wrap msg inner ih =>
    rw [Is_wrap_sentinel msg inner a ha] at h
    rw [Is_wrap_sentinel msg inner b hb]
    exact ih h
  | ErrUserNotFound | ErrInvalidEmail | ErrEmptyField | ErrNoRows =>
    simp only [errors.Is] at h ⊢
    split at h
    · rename_i heq
      subst heq
      simp [hab]
    · simp at h
  | other msg =>
    simp only [errors.Is] at h ⊢
    split at h
    · rename_i heq
      subst heq
      simp [hab]
    · simp at h

/-- C9: `handleError` is a function of the error alone.  The body always carries the message
of the error under the key `error`.  An error that is NotFound or wraps it gets 404; one that
is or wraps EmptyField or InvalidEmail gets 400; any other error gets 500.  In particular the
error of `CreateUser` for a blank username, EmptyField wrapped as
`username: required field is empty`, gets 400 with that message. -/
theorem C9_handleError_status (err : Error) :
    (handleError err).body = JSON.object [("error", JSON.string err.Error)] ∧
    (errors.Is err ErrUserNotFound = true → (handleError err).status = 404) ∧
    (errors.Is err ErrEmptyField = true ∨ errors.Is err ErrInvalidEmail = true →
      (handleError err).status = 400) ∧
    (errors.Is err ErrUserNotFound = false → errors.Is err ErrEmptyField = false →
      errors.Is err ErrInvalidEmail = false → (handleError err).status = 500) ∧
    handleError (fmt.Errorf_s_w "username" ErrEmptyField)
      = ⟨400, JSON.object [("error", JSON.string "username: required field is empty")]⟩ := by
  refine ⟨?_, ?_, ?_, ?_, ?_⟩
  · unfold handleError
    split
    · rfl
    · split <;> rfl
  · intro h
    simp [handleError, h, StatusNotFound]
  · intro h
    have hnf : errors.Is err ErrUserNotFound = false := by
      rcases h with h | h
      · exact Is_sentinel_exclusive ErrEmptyField ErrUserNotFound (fun m x hh => by cases hh)
          (fun m x hh => by cases hh) (by decide) err h
      · exact Is_sentinel_exclusive ErrInvalidEmail ErrUserNotFound (fun m x hh => by cases hh)
          (fun m x hh => by cases hh) (by decide) err h
    rcases h with h | h <;> simp [handleError, hnf, h, StatusBadRequest]
  · intro h1 h2 h3
    simp [handleError, h1, h2, h3, StatusInternalServerError]
  · simp [handleError, fmt.Errorf_s_w, errors.Is, ErrEmptyField, ErrUserNotFound,
      StatusBadRequest, marshalH_error, Error.Error]

/-- C9 at three errors: NotFound wrapped by a caller, the sentinel InvalidEmail, and the error
of the test library. -/
theorem C9_handleError_status_witness :
    (handleError (Error.wrap "lookup: user not found" ErrUserNotFound)).status = 404 ∧
    (handleError ErrInvalidEmail).status = 400 ∧
    (handleError AnError).status = 500 :=
  ⟨(C9_handleError_status (Error.wrap "lookup: user not found" ErrUserNotFound)).2.1
      (by decide),
    (C9_handleError_status ErrInvalidEmail).2.2.1 (Or.inr (by decide)),
    (C9_handleError_status AnError).2.2.2.1 (by decide) (by decide) (by decide)⟩

/-- The list endpoint over the SQL repository, whenever the list query yields no row and no
error: the repository returns the nil slice without error, the service passes it on, and the
response of the endpoint is 200 with the JSON value null. -/
theorem GetAllUsers_no_rows {δ : Type} (db : sql.DB δ) (ParseAddress : AddressParser) (d d1 : δ)
    (calls : List Call)
    (hquery : db.QueryContext selectUserColumns [] d = (Except.ok ⟨[], none⟩, d1)) :
    userRepository.GetAll db d = ((none, none), d1) ∧
    userService.GetAllUsers (NewUserService ParseAddress (NewUserRepository db)) ⟨d, calls⟩
      = ((none, none), ⟨d1, calls ++ [Call.GetAll]⟩) ∧
    (UserController.GetAllUsers ⟨NewUserService ParseAddress (NewUserRepository db)⟩
      ⟨d, calls⟩).1 = ⟨200, JSON.null⟩ := by
  have h1 : userRepository.GetAll db d = ((none, none), d1) := by
    simp [userRepository.GetAll, hquery, userRepository.scanRows]
  have h2 : userService.GetAllUsers (NewUserService ParseAddress (NewUserRepository db))
      ⟨d, calls⟩ = ((none, none), ⟨d1, calls ++ [Call.GetAll]⟩) := by
    simp [userService.GetAllUsers, UserRepository.callGetAll, NewUserService, NewUserRepository,
      h1]
  refine ⟨h1, h2, ?_⟩
  simp [UserController.GetAllUsers, h2, marshalUsers, StatusOK]

/-- C10, the code at the failing input: over a database whose `users` table holds no rows, the
repository `GetAll` returns without error a sequence of length 0, which is the nil slice; the
service `GetAllUsers` passes it through; and the list endpoint responds 200 with the JSON value
null, which is not the empty array.  Over the mock of the tests, whose `GetAll` starts from an
allocated slice, the same endpoint responds with the empty array. -/
theorem C10_list_endpoint_empty_table_responds_null :
    (userRepository.GetAll emptyTableDB ()).1 = (none, none) ∧
    Slice.len (userRepository.GetAll emptyTableDB ()).1.1 = 0 ∧
    (userService.GetAllUsers (NewUserService exampleParseAddress (NewUserRepository emptyTableDB))
      ⟨(), []⟩).1 = (userRepository.GetAll emptyTableDB ()).1 ∧
    (UserController.GetAllUsers
      ⟨NewUserService exampleParseAddress (NewUserRepository emptyTableDB)⟩ ⟨(), []⟩).1
      = ⟨200, JSON.null⟩ ∧
    JSON.null ≠ JSON.array [] ∧
    (UserController.GetAllUsers ⟨setupTest.2⟩ setupTest.1).1 = ⟨200, JSON.array []⟩ := by
  refine ⟨rfl, rfl, rfl, rfl, ?_, rfl⟩
  intro h
  cases h

end handler

/-! ## Errors of the repository -/

section storage

variable {σ : Type}

/-- C11, as amended: whenever a repository call made by a service operation returns the error
`e`, the operation returns exactly `e`.  The three lookups, `CreateUser` and `UpdateUser`
return a nil user with it, also when the repository returned a user next to the error or no
user at all (so the error is reported, not NotFound); `GetAllUsers`, a passthrough, returns with
it the sequence the repository returned.  After a failed existence lookup `UpdateUser` and
`DeleteUser` have made no call but the lookup.  As the error comes back unchanged, it is of a
domain kind only if `e` was. -/
theorem C11_repository_errors_pass_unchanged (svc : userService σ) (w : World σ) (e : Error) :
    (∀ users s1, svc.userRepository.GetAll w.store = ((users, some e), s1) →
      GetAllUsers svc w = ((users, some e), ⟨s1, w.calls ++ [Call.GetAll]⟩)) ∧
    (∀ username user s1,
      svc.userRepository.GetByUsername username w.store = ((user, some e), s1) →
      GetUserByUsername svc username w
        = ((none, some e), ⟨s1, w.calls ++ [Call.GetByUsername username]⟩)) ∧
    (∀ id user s1, svc.userRepository.GetByID id w.store = ((user, some e), s1) →
      GetUserByID svc id w = ((none, some e), ⟨s1, w.calls ++ [Call.GetByID id]⟩)) ∧
    (∀ uuid user s1, strings.TrimSpace uuid ≠ "" →
      svc.userRepository.GetByUUID uuid w.store = ((user, some e), s1) →
      GetUserByUUID svc uuid w = ((none, some e), ⟨s1, w.calls ++ [Call.GetByUUID uuid]⟩)) ∧
    (∀ request user s1, validateCreateRequest svc request = none →
      svc.userRepository.Create
          (User.mk 0 "" request.Username request.Email request.FullName) w.store
        = ((user, some e), s1) →
      CreateUser svc request w
        = ((none, some e),
            ⟨s1, w.calls ++ [Call.Create
              (User.mk 0 "" request.Username request.Email request.FullName)]⟩)) ∧
    (∀ uuid request user s1, strings.TrimSpace uuid ≠ "" →
      svc.userRepository.GetByUUID uuid w.store = ((user, some e), s1) →
      UpdateUser svc uuid request w
        = ((none, some e), ⟨s1, w.calls ++ [Call.GetByUUID uuid]⟩)) ∧
    (∀ uuid request existing s1 s2, strings.TrimSpace uuid ≠ "" →
      svc.userRepository.GetByUUID uuid w.store = ((some existing, none), s1) →
      validateUpdateRequest svc request = none →
      svc.userRepository.Update uuid
          (User.mk existing.ID existing.UUID
            (updateFieldIfProvided existing.Username request.Username)
            (updateFieldIfProvided existing.Email request.Email)
            (updateFieldIfProvided existing.FullName request.FullName)) s1
        = (some e, s2) →
      UpdateUser svc uuid request w
        = ((none, some e),
            ⟨s2, w.calls ++ [Call.GetByUUID uuid, Call.Update uuid
              (User.mk existing.ID existing.UUID
                (updateFieldIfProvided existing.Username request.Username)
                (updateFieldIfProvided existing.Email request.Email)
                (updateFieldIfProvided existing.FullName request.FullName))]⟩)) ∧
    (∀ uuid user s1, strings.TrimSpace uuid ≠ "" →
      svc.userRepository.GetByUUID uuid w.store = ((user, some e), s1) →
      DeleteUser svc uuid w = (some e, ⟨s1, w.calls ++ [Call.GetByUUID uuid]⟩)) ∧
    (∀ uuid existing s1 s2, strings.TrimSpace uuid ≠ "" →
      svc.userRepository.GetByUUID uuid w.store = ((some existing, none), s1) →
      svc.userRepository.Delete uuid s1 = (some e, s2) →
      DeleteUser svc uuid w
        = (some e, ⟨s2, w.calls ++ [Call.GetByUUID uuid, Call.Delete uuid]⟩)) := by
  refine ⟨?_, ?_, ?_, ?_, ?_, ?_, ?_, ?_, ?_⟩
  · intro users s1 h
    simp [GetAllUsers, UserRepository.callGetAll, h]
  · intro username user s1 h
    simp [GetUserByUsername, UserRepository.callGetByUsername, h, validateUserExists_error]
  · intro id user s1 h
    simp [GetUserByID, UserRepository.callGetByID, h, validateUserExists_error]
  · intro uuid user s1 huuid h
    simp [GetUserByUUID, validateNonEmpty_nonblank huuid, UserRepository.callGetByUUID, h,
      validateUserExists_error]
  · intro request user s1 hv h
    simp [CreateUser, hv, UserRepository.callCreate, h]
  · intro uuid request user s1 huuid h
    simp [UpdateUser, validateNonEmpty_nonblank huuid, UserRepository.callGetByUUID, h,
      validateUserExists_error]
  · intro uuid request existing s1 s2 huuid h hv hupd
    simp [UpdateUser, validateNonEmpty_nonblank huuid, UserRepository.callGetByUUID, h,
      validateUserExists_found, hv, UserRepository.callUpdate, hupd]
  · intro uuid user s1 huuid h
    simp [DeleteUser, validateNonEmpty_nonblank huuid, UserRepository.callGetByUUID, h,
      validateUserExists_error]
  · intro uuid existing s1 s2 huuid h hdel
    simp [DeleteUser, validateNonEmpty_nonblank huuid, UserRepository.callGetByUUID, h,
      validateUserExists_found, UserRepository.callDelete, hdel]

/-- C11 as amended, at concrete failures: over the SQL repository on `brokenDB` (the listing
breaks after one row, the row of the `INSERT` cannot be scanned, `Update` and `Delete` fail
after a successful lookup), and over the mock set to fail (the lookup itself fails). -/
theorem C11_repository_errors_pass_unchanged_witness :
    GetAllUsers (NewUserService exampleParseAddress (NewUserRepository brokenDB)) ⟨(), []⟩
      = ((some [testUser], some connError), ⟨(), [Call.GetAll]⟩) ∧
    GetUserByUUID setupTest.2 testUser.UUID
        ⟨{ newMockUserRepository with shouldFail := true }, []⟩
      = ((none, some AnError),
          ⟨{ newMockUserRepository with shouldFail := true },
            [Call.GetByUUID testUser.UUID]⟩) ∧
    CreateUser (NewUserService exampleParseAddress (NewUserRepository brokenDB))
        ⟨"newuser", "newuser@example.com", "New User"⟩ ⟨(), []⟩
      = ((none, some connError),
          ⟨(), [Call.Create (User.mk 0 "" "newuser" "newuser@example.com" "New User")]⟩) ∧
    UpdateUser setupTest.2 testUser.UUID ⟨"updateduser", "", ""⟩
        ⟨{ newMockUserRepository with shouldFail := true }, []⟩
      = ((none, some AnError),
          ⟨{ newMockUserRepository with shouldFail := true },
            [Call.GetByUUID testUser.UUID]⟩) ∧
    UpdateUser (NewUserService exampleParseAddress (NewUserRepository brokenDB)) testUser.UUID
        ⟨"updateduser", "", ""⟩ ⟨(), []⟩
      = ((none, some connError),
          ⟨(), [Call.GetByUUID testUser.UUID,
            Call.Update testUser.UUID
              (User.mk 1 testUser.UUID "updateduser" "test@example.com" "Test User")]⟩) ∧
    DeleteUser setupTest.2 testUser.UUID
        ⟨{ newMockUserRepository with shouldFail := true }, []⟩
      = (some AnError,
          ⟨{ newMockUserRepository with shouldFail := true },
            [Call.GetByUUID testUser.UUID]⟩) ∧
    DeleteUser (NewUserService exampleParseAddress (NewUserRepository brokenDB)) testUser.UUID
        ⟨(), []⟩
      = (some connError, ⟨(), [Call.GetByUUID testUser.UUID, Call.Delete testUser.UUID]⟩) :=
  ⟨(C11_repository_errors_pass_unchanged
      (NewUserService exampleParseAddress (NewUserRepository brokenDB)) ⟨(), []⟩ connError).1
      (some [testUser]) () (by decide),
    (C11_repository_errors_pass_unchanged setupTest.2
      ⟨{ newMockUserRepository with shouldFail := true }, []⟩ AnError).2.2.2.1
      testUser.UUID none { newMockUserRepository with shouldFail := true } (by decide)
      (by decide),
    (C11_repository_errors_pass_unchanged
      (NewUserService exampleParseAddress (NewUserRepository brokenDB)) ⟨(), []⟩
      connError).2.2.2.2.1
      ⟨"newuser", "newuser@example.com", "New User"⟩
      (User.mk 0 "" "newuser" "newuser@example.com" "New User") () (by decide) (by decide),
    (C11_repository_errors_pass_unchanged setupTest.2
      ⟨{ newMockUserRepository with shouldFail := true }, []⟩ AnError).2.2.2.2.2.1
      testUser.UUID ⟨"updateduser", "", ""⟩ none
      { newMockUserRepository with shouldFail := true } (by decide) (by decide),
    (C11_repository_errors_pass_unchanged
      (NewUserService exampleParseAddress (NewUserRepository brokenDB)) ⟨(), []⟩
      connError).2.2.2.2.2.2.1
      testUser.UUID ⟨"updateduser", "", ""⟩ testUser () () (by decide) (by decide) (by decide)
      (by decide),
    (C11_repository_errors_pass_unchanged setupTest.2
      ⟨{ newMockUserRepository with shouldFail := true }, []⟩ AnError).2.2.2.2.2.2.2.1
      testUser.UUID none { newMockUserRepository with shouldFail := true } (by decide)
      (by decide),
    (C11_repository_errors_pass_unchanged
      (NewUserService exampleParseAddress (NewUserRepository brokenDB)) ⟨(), []⟩
      connError).2.2.2.2.2.2.2.2
      testUser.UUID testUser () () (by decide) (by decide) (by decide)⟩

/-- C11 as stated fails for `GetAllUsers`: over the SQL repository on `brokenDB` the listing
scans one row and `rows.Err()` then reports `connError`, which is none of the domain kinds.
`GetAll` returns the rows scanned so far together with the error, and `GetAllUsers` returns
the error unchanged but with that sequence, not with a nil result. -/
theorem C11_GetAllUsers_result_not_nil :
    (userRepository.GetAll brokenDB ()).1 = (some [testUser], some connError) ∧
    errors.Is connError ErrUserNotFound = false ∧
    errors.Is connError ErrEmptyField = false ∧
    errors.Is connError ErrInvalidEmail = false ∧
    (GetAllUsers (NewUserService exampleParseAddress (NewUserRepository brokenDB))
      ⟨(), []⟩).1.2 = some connError ∧
    (GetAllUsers (NewUserService exampleParseAddress (NewUserRepository brokenDB))
      ⟨(), []⟩).1.1 ≠ none := by
  decide

end storage

/-! ## What the store can come to hold -/

section invariant

theorem TrimSpace_nonblank_ne_empty {s : String} (h : strings.TrimSpace s ≠ "") : s ≠ "" := by
  intro hs
  subst hs
  exact h (by decide)

/-- A request that `validateCreateRequest` lets through has a non-blank username and a
non-blank email that the parser accepts. -/
theorem validateCreateRequest_none {σ : Type} (svc : userService σ)
    (request : CreateUserRequest) (h : validateCreateRequest svc request = none) :
    strings.TrimSpace request.Username ≠ "" ∧ strings.TrimSpace request.Email ≠ "" ∧
      isValidEmail svc.ParseAddress request.Email = true := by
  unfold validateCreateRequest validateRequiredField at h
  by_cases hu : strings.TrimSpace request.Username = ""
  · simp [hu] at h
  · by_cases he : strings.TrimSpace request.Email = ""
    · simp [hu, he] at h
    · refine ⟨hu, he, ?_⟩
      cases hv : isValidEmail svc.ParseAddress request.Email with
      | true => rfl
      | false => simp [hu, he, hv] at h

/-- A request that `validateUpdateRequest` lets through has an email that is blank after
trimming or that the parser accepts. -/
theorem validateUpdateRequest_none {σ : Type} (svc : userService σ)
    (request : UpdateUserRequest) (h : validateUpdateRequest svc request = none) :
    strings.TrimSpace request.Email = "" ∨
      isValidEmail svc.ParseAddress request.Email = true := by
  unfold validateUpdateRequest at h
  by_cases he : strings.TrimSpace request.Email = ""
  · exact Or.inl he
  · right
    cases hv : isValidEmail svc.ParseAddress request.Email with
    | true => rfl
    | false => simp [he, hv] at h

/-- What `CreateUser` does to the map of the mock: nothing, or one assignment of a record built
from a request that passed validation. -/
theorem CreateUser_mock_users (svc : userService mockUserRepository)
    (hrepo : svc.userRepository = mockUserRepository.repo) (request : CreateUserRequest)
    (w : World mockUserRepository) :
    (CreateUser svc request w).2.store.users = w.store.users ∨
    (validateCreateRequest svc request = none ∧
      (CreateUser svc request w).2.store.users
        = w.store.users.set (generateMockUUID w.store.nextID)
            (User.mk w.store.nextID (generateMockUUID w.store.nextID) request.Username
              request.Email request.FullName)) := by
  cases hv : validateCreateRequest svc request with
  | some e =>
    left
    simp [CreateUser, hv]
  | none =>
    cases hf : w.store.shouldFail with
    | true =>
      left
      simp [CreateUser, hv, hrepo, UserRepository.callCreate, mockUserRepository.repo,
        mockUserRepository.Create, hf]
    | false =>
      right
      simp [CreateUser, hv, hrepo, UserRepository.callCreate, mockUserRepository.repo,
        mockUserRepository.Create, hf]

/-- What `UpdateUser` does to the map of the mock: nothing, or one assignment, under `uuid`, of
the stored record merged with a request that passed validation. -/
theorem UpdateUser_mock_users (svc : userService mockUserRepository)
    (hrepo : svc.userRepository = mockUserRepository.repo) (uuid : String)
    (request : UpdateUserRequest) (w : World mockUserRepository) :
    (UpdateUser svc uuid request w).2.store.users = w.store.users ∨
    ∃ existing, w.store.users.get uuid = some existing ∧
      validateUpdateRequest svc request = none ∧
      (UpdateUser svc uuid request w).2.store.users
        = w.store.users.set uuid
            (User.mk existing.ID existing.UUID
              (updateFieldIfProvided existing.Username request.Username)
              (updateFieldIfProvided existing.Email request.Email)
              (updateFieldIfProvided existing.FullName request.FullName)) := by
  cases hn : validateNonEmpty uuid with
  | some e =>
    left
    simp [UpdateUser, hn]
  | none =>
    cases hf : w.store.shouldFail with
    | true =>
      left
      simp [UpdateUser, hn, hrepo, UserRepository.callGetByUUID, mockUserRepository.repo,
        mockUserRepository.GetByUUID, hf, validateUserExists_error]
    | false =>
      cases hg : w.store.users.get uuid with
      | none =>
        left
        simp [UpdateUser, hn, hrepo, UserRepository.callGetByUUID, mockUserRepository.repo,
          mockUserRepository.GetByUUID, hf, hg, validateUserExists_absent]
      | some existing =>
        cases hv : validateUpdateRequest svc request with
        | some e =>
          left
          simp [UpdateUser, hn, hrepo, UserRepository.callGetByUUID, mockUserRepository.repo,
            mockUserRepository.GetByUUID, hf, hg, validateUserExists_found, hv]
        | none =>
          right
          refine ⟨existing, rfl, rfl, ?_⟩
          simp [UpdateUser, hn, hrepo, UserRepository.callGetByUUID, mockUserRepository.repo,
            mockUserRepository.GetByUUID, hf, hg, validateUserExists_found, hv,
            UserRepository.callUpdate, mockUserRepository.Update]

/-- What `DeleteUser` does to the map of the mock: nothing, or the removal of `uuid`. -/
theorem DeleteUser_mock_users (svc : userService mockUserRepository)
    (hrepo : svc.userRepository = mockUserRepository.repo) (uuid : String)
    (w : World mockUserRepository) :
    (DeleteUser svc uuid w).2.store.users = w.store.users ∨
    (DeleteUser svc uuid w).2.store.users = w.store.users.delete uuid := by
  cases hn : validateNonEmpty uuid with
  | some e =>
    left
    simp [DeleteUser, hn]
  | none =>
    cases hf : w.store.shouldFail with
    | true =>
      left
      simp [DeleteUser, hn, hrepo, UserRepository.callGetByUUID, mockUserRepository.repo,
        mockUserRepository.GetByUUID, hf, validateUserExists_error]
    | false =>
      cases hg : w.store.users.get uuid with
      | none =>
        left
        simp [DeleteUser, hn, hrepo, UserRepository.callGetByUUID, mockUserRepository.repo,
          mockUserRepository.GetByUUID, hf, hg, validateUserExists_absent]
      | some existing =>
        right
        simp [DeleteUser, hn, hrepo, UserRepository.callGetByUUID, mockUserRepository.repo,
          mockUserRepository.GetByUUID, hf, hg, validateUserExists_found,
          UserRepository.callDelete, mockUserRepository.Delete]

/-- The invariant argument, for a property `good` of emails: if every email that passes the
checks of `CreateUser` is good, and every non-empty email of an update in `ops` that passes the
check of `UpdateUser` is good, then a sequence of calls over the mock keeps every stored user
with a non-empty username and a non-empty, good email. -/
theorem runOps_mock_invariant (svc : userService mockUserRepository)
    (hrepo : svc.userRepository = mockUserRepository.repo) (good : String → Prop)
    (hcreate : ∀ s, strings.TrimSpace s ≠ "" → isValidEmail svc.ParseAddress s = true → good s)
    (ops : List Op)
    (hupdate : ∀ uuid request, Op.UpdateUser uuid request ∈ ops → request.Email ≠ "" →
      (strings.TrimSpace request.Email = "" ∨
        isValidEmail svc.ParseAddress request.Email = true) → good request.Email)
    (w : World mockUserRepository)
    (hinv : ∀ k u, w.store.users.get k = some u →
      u.Username ≠ "" ∧ u.Email ≠ "" ∧ good u.Email) :
    ∀ k u, (runOps svc ops w).store.users.get k = some u →
      u.Username ≠ "" ∧ u.Email ≠ "" ∧ good u.Email := by
  induction ops generalizing w with
  | nil => exact hinv
  | cons op ops ih =>
    refine ih (fun uuid request hmem => hupdate uuid request (List.mem_cons_of_mem _ hmem)) _ ?_
    intro k u hk
    cases op with
    | CreateUser request =>
      rcases CreateUser_mock_users svc hrepo request w with h | ⟨hv, h⟩
      · simp only [Op.run, h] at hk
        exact hinv k u hk
      · simp only [Op.run, h] at hk
        obtain ⟨hu, he, hvalid⟩ := validateCreateRequest_none svc request hv
        by_cases hkey : k = generateMockUUID w.store.nextID
        · rw [hkey, UserMap.get_set_self] at hk
          cases hk
          exact ⟨TrimSpace_nonblank_ne_empty hu, TrimSpace_nonblank_ne_empty he,
            hcreate _ he hvalid⟩
        · rw [UserMap.get_set_of_ne _ _ _ _ hkey] at hk
          exact hinv k u hk
    | UpdateUser uuid request =>
      rcases UpdateUser_mock_users svc hrepo uuid request w with h | ⟨existing, hex, hv, h⟩
      · simp only [Op.run, h] at hk
        exact hinv k u hk
      · simp only [Op.run, h] at hk
        by_cases hkey : k = uuid
        · rw [hkey, UserMap.get_set_self] at hk
          cases hk
          obtain ⟨hu0, he0, hg0⟩ := hinv uuid existing hex
          refine ⟨?_, ?_, ?_⟩
          · show updateFieldIfProvided existing.Username request.Username ≠ ""
            unfold updateFieldIfProvided
            split
            · assumption
            · exact hu0
          · show updateFieldIfProvided existing.Email request.Email ≠ ""
            unfold updateFieldIfProvided
            split
            · assumption
            · exact he0
          · show good (updateFieldIfProvided existing.Email request.Email)
            unfold updateFieldIfProvided
            split
            · rename_i hne
              exact hupdate uuid request (List.mem_cons_self _ _) hne
                (validateUpdateRequest_none svc request hv)
            · exact hg0
        · rw [UserMap.get_set_of_ne _ _ _ _ hkey] at hk
          exact hinv k u hk
    | DeleteUser uuid =>
      rcases DeleteUser_mock_users svc hrepo uuid w with h | h
      · simp only [Op.run, h] at hk
        exact hinv k u hk
      · simp only [Op.run, h] at hk
        by_cases hkey : k = uuid
        · rw [hkey, UserMap.get_delete_self] at hk
          cases hk
        · rw [UserMap.get_delete_of_ne _ _ _ hkey] at hk
          exact hinv k u hk

/-- What the code keeps of the invariant of C12, for every parser: from the empty mock, after
any sequence of `CreateUser`, `UpdateUser` and `DeleteUser`, every stored user has a non-empty
username and a non-empty email, and the email is accepted by the parser or is white space
only. -/
theorem reachable_stored_fields (ParseAddress : AddressParser) (ops : List Op) (k : String)
    (u : User)
    (hk : (runOps (NewUserService ParseAddress mockUserRepository.repo) ops
      ⟨newMockUserRepository, []⟩).store.users.get k = some u) :
    u.Username ≠ "" ∧ u.Email ≠ "" ∧
      (isValidEmail ParseAddress u.Email = true ∨ strings.TrimSpace u.Email = "") :=
  runOps_mock_invariant (NewUserService ParseAddress mockUserRepository.repo) rfl
    (fun s => isValidEmail ParseAddress s = true ∨ strings.TrimSpace s = "")
    (fun _ _ hvalid => Or.inl hvalid) ops
    (fun _ _ _ _ h => h.symm) ⟨newMockUserRepository, []⟩
    (fun k u h => by simp [newMockUserRepository, UserMap.get] at h) k u hk

/-- The invariant of C12 where it does hold: from the empty mock, after any sequence of calls
in which no update carries an email that is non-empty and white space only, every stored user
has a non-empty username and a non-empty email that the parser accepts. -/
theorem reachable_stored_fields_without_whitespace_emails (ParseAddress : AddressParser)
    (ops : List Op)
    (hops : ∀ uuid request, Op.UpdateUser uuid request ∈ ops →
      request.Email = "" ∨ strings.TrimSpace request.Email ≠ "")
    (k : String) (u : User)
    (hk : (runOps (NewUserService ParseAddress mockUserRepository.repo) ops
      ⟨newMockUserRepository, []⟩).store.users.get k = some u) :
    u.Username ≠ "" ∧ u.Email ≠ "" ∧ isValidEmail ParseAddress u.Email = true :=
  runOps_mock_invariant (NewUserService ParseAddress mockUserRepository.repo) rfl
    (fun s => isValidEmail ParseAddress s = true)
    (fun _ _ hvalid => hvalid) ops
    (fun uuid request hmem hne h => by
      rcases hops uuid request hmem with h0 | h0
      · exact absurd h0 hne
      · rcases h with h | h
        · exact absurd h h0
        · exact h)
    ⟨newMockUserRepository, []⟩
    (fun k u h => by simp [newMockUserRepository, UserMap.get] at h) k u hk

/-- C12, the code at the failing input: from the empty mock, create a user with a valid request
and then update it with a request whose email is one space.  The store then holds that user
with the email of one space, which the parser does not accept; its username and email are
still non-empty strings. -/
theorem C12_whitespace_email_reaches_the_store :
    setupTest.1.store.users = [] ∧
    (runOps setupTest.2
        [Op.CreateUser ⟨"newuser", "newuser@example.com", "New User"⟩,
          Op.UpdateUser "123e4567-e89b-12d3-a456-426614170001" ⟨"", " ", ""⟩]
        setupTest.1).store.users.get "123e4567-e89b-12d3-a456-426614170001"
      = some (User.mk 1 "123e4567-e89b-12d3-a456-426614170001" "newuser" " " "New User") ∧
    isValidEmail setupTest.2.ParseAddress " " = false ∧
    ("newuser" : String) ≠ "" ∧ (" " : String) ≠ "" := by
  decide

end invariant

end cruder
